import Mathlib

/-!
Shallow embedding of the Laser Defender game engine (src/app.js) in Lean 4.

The engine is single-threaded JavaScript driven by requestAnimationFrame.
We model one canonical copy of the engine (the repository contains a
comment-stripped duplicate of the same code).  Modelling conventions:

* positions, sizes and speeds (JS floating-point numbers that only undergo
  +, -, *, comparisons in the engine) are modelled as rationals;
* health, score, lives and millisecond timestamps are integers; frame and
  the statistics counters are naturals;
* Math.random() is modelled as an oracle stream (Nat -> Rat) supplied in the
  environment of a tick, with a cursor threaded through the code in the
  order the JS call sites execute;
* Date.now() is modelled as a single timestamp per externally triggered
  call, per the design note that wall-clock time is captured once per tick;
* DOM writes, sounds, CSS effects and localStorage are presentation-side
  effects with no influence on the engine state and are dropped; the
  decorative star field (render-only, touches no gameplay variable) is
  likewise dropped.
-/

namespace LD

/-- Difficulty levels selectable at game start (startGame in src/app.js). -/
inductive Difficulty where
  | easy
  | normal
  | hard
deriving DecidableEq

/-- Enemy variant tag: spawnEnemy picks fast with probability 0.3. -/
inductive EType where
  | normal
  | fast
deriving DecidableEq

/-- Axis-aligned rectangle, the sole geometric primitive of the engine. -/
structure Rect where
  x : ℚ
  y : ℚ
  w : ℚ
  h : ℚ
deriving DecidableEq

/-- collides() from src/app.js lines 742-746: AABB test with strict
inequalities on all four sides. -/
def collides (a b : Rect) : Bool :=
  decide (a.x < b.x + b.w) && decide (a.x + a.w > b.x) &&
  decide (a.y < b.y + b.h) && decide (a.y + a.h > b.y)

/-- The player ship (recreated by resetGame). -/
structure Player where
  x : ℚ
  y : ℚ
  w : ℚ
  h : ℚ
  speed : ℚ
deriving DecidableEq

/-- A bullet; shoot() creates it with dead absent (falsy), collision
handlers set dead before compaction removes it. -/
structure Bullet where
  x : ℚ
  y : ℚ
  w : ℚ
  h : ℚ
  speed : ℚ
  dead : Bool := false
deriving DecidableEq

/-- An enemy as created by spawnEnemy(). -/
structure Enemy where
  x : ℚ
  y : ℚ
  w : ℚ
  h : ℚ
  speed : ℚ
  health : ℤ
  type : EType
  dead : Bool := false
deriving DecidableEq

/-- A cosmetic explosion particle created by boom(). -/
structure Particle where
  x : ℚ
  y : ℚ
  vx : ℚ
  vy : ℚ
  life : ℤ
  color : String
  size : ℚ
deriving DecidableEq

/-- A meteor from the meteor-shower event (spawnMeteor()). -/
structure Meteor where
  x : ℚ
  y : ℚ
  w : ℚ
  h : ℚ
  speed : ℚ
  health : ℤ
  dead : Bool := false
deriving DecidableEq

def Player.rect (p : Player) : Rect := ⟨p.x, p.y, p.w, p.h⟩

def Bullet.rect (b : Bullet) : Rect := ⟨b.x, b.y, b.w, b.h⟩

def Enemy.rect (e : Enemy) : Rect := ⟨e.x, e.y, e.w, e.h⟩

def Meteor.rect (m : Meteor) : Rect := ⟨m.x, m.y, m.w, m.h⟩

/-- The module-level mutable game state of src/app.js (lines 558-587),
restricted to the engine variables (DOM handles, audio and the decorative
star field excluded). -/
structure GameState where
  player : Player
  bullets : List Bullet
  enemies : List Enemy
  particles : List Particle
  meteors : List Meteor
  score : ℤ
  lives : ℤ
  gameRunning : Bool
  gamePaused : Bool
  gameStarted : Bool
  frame : ℕ
  waveNumber : ℕ
  killsThisWave : ℕ
  shotsFired : ℕ
  shotsHit : ℕ
  enemiesKilled : ℕ
  startTime : ℤ
  elapsedTime : ℤ
  difficulty : Difficulty
  enemySpawnRate : ℕ
  enemySpeedMult : ℚ
  konamiBonus : ℤ
  lastShot : ℤ
  meteorActive : Bool
  meteorTimer : ℤ
  lastMeteorCheck : ℕ
  idleRunning : Bool
deriving DecidableEq

/-- External inputs of one tick: the wall clock, the held keys (keys map of
src/app.js) and the Math.random() oracle stream. -/
structure Env where
  now : ℤ
  keyLeft : Bool
  keyRight : Bool
  keyFire : Bool
  rng : ℕ → ℚ

/-- Threaded pair of game state and random-stream cursor. -/
structure GK where
  st : GameState
  k : ℕ

/-- KILLS_PER_WAVE constant, src/app.js line 581. -/
def KILLS_PER_WAVE : ℕ := 8

/-- Difficulty table entry for the spawn interval, as in startGame()
and the wave-advance expression (easy 80, hard 40, default 60). -/
def baseSpawnRate : Difficulty → ℕ
  | .easy => 80
  | .hard => 40
  | .normal => 60

/-- Difficulty table entry for the speed multiplier (easy 0.7, hard 1.5,
default 1). -/
def baseSpeedMult : Difficulty → ℚ
  | .easy => 7/10
  | .hard => 3/2
  | .normal => 1

/-- Difficulty table entry for starting lives (startGame()). -/
def baseLives : Difficulty → ℤ
  | .easy => 5
  | .normal => 3
  | .hard => 1

/-- Difficulty table entry for player speed (startGame()). -/
def basePlayerSpeed : Difficulty → ℚ
  | .easy => 7
  | .normal => 6
  | .hard => 5

/-- The spawn-interval value produced by the engine formulas as a function
of difficulty and current wave number: startGame() sets the base value at
wave 1, and the wave-advance block sets max(20, base - wb*3) with
wb = min(waveNumber - 1, 9). -/
def spawnRateFor (d : Difficulty) (wn : ℕ) : ℕ :=
  max 20 (baseSpawnRate d - min (wn - 1) 9 * 3)

/-- The speed-multiplier value produced by the engine formulas as a
function of difficulty and current wave number: base + wb*0.08 with
wb = min(waveNumber - 1, 9). -/
def speedMultFor (d : Difficulty) (wn : ℕ) : ℚ :=
  baseSpeedMult d + ((min (wn - 1) 9 : ℕ) : ℚ) * (2/25)

/-- shoot() from src/app.js lines 701-709: rejected unless running and
unpaused, rate-limited to one bullet per 150 ms of wall-clock time,
otherwise appends one bullet at (player.x + 24, player.y) and counts it. -/
def shoot (now : ℤ) (g : GameState) : GameState :=
  if !g.gameRunning || g.gamePaused then g
  else if now - g.lastShot < 150 then g
  else
    { g with
      lastShot := now
      bullets := g.bullets ++ [{ x := g.player.x + 24, y := g.player.y,
                                 w := 8, h := 16, speed := 14 }]
      shotsFired := g.shotsFired + 1 }

/-- The fire guard of shoot() as a Boolean predicate. -/
def shotAccepted (now : ℤ) (g : GameState) : Bool :=
  g.gameRunning && !g.gamePaused && decide (150 ≤ now - g.lastShot)

/-- togglePause() from src/app.js lines 689-695: flip the paused flag;
pausing snapshots elapsedTime, resuming restores startTime from it. -/
def togglePause (now : ℤ) (g : GameState) : GameState :=
  let g1 := { g with gamePaused := !g.gamePaused }
  if g1.gamePaused then { g1 with elapsedTime := now - g1.startTime }
  else { g1 with startTime := now - g1.elapsedTime }

/-- endGame() from src/app.js lines 1173-1186 (engine effects only: the
lifecycle leaves Running and the final elapsed time is captured; the rest
of the function formats the game-over panel). -/
def endGame (now : ℤ) (g : GameState) : GameState :=
  { g with gameRunning := false, elapsedTime := now - g.startTime }

/-- The end-of-run accuracy expression used at src/app.js lines 1177 and
1191: shotsFired > 0 ? Math.round(shotsHit / shotsFired * 100) : 0.
Math.round(x) = floor(x + 1/2) for the non-negative values that arise,
which is exactly Lean round on the rationals. -/
def accuracy (hit fired : ℕ) : ℤ :=
  if 0 < fired then round ((hit : ℚ) / (fired : ℚ) * 100) else 0

/-- resetGame() from src/app.js lines 1214-1246: reinitialize the engine
state and return to the difficulty-select (idle) screen.  The JS function
does not touch lastShot, difficulty, enemySpawnRate or enemySpeedMult, so
those fields pass through. -/
def resetGame (g : GameState) : GameState :=
  { g with
    player := { x := 275, y := 720, w := 48, h := 32, speed := 6 }
    bullets := []
    enemies := []
    particles := []
    meteors := []
    score := 0
    lives := 3
    gameRunning := false
    gamePaused := false
    gameStarted := false
    frame := 0
    shotsFired := 0
    shotsHit := 0
    enemiesKilled := 0
    startTime := 0
    elapsedTime := 0
    waveNumber := 1
    killsThisWave := 0
    konamiBonus := 0
    meteorActive := false
    meteorTimer := 0
    lastMeteorCheck := 0
    idleRunning := true }

/-- startGame() from src/app.js lines 653-686 (engine effects): pick the
difficulty table row, enter Running, record the start time, reset the wave
and meteor state, and consume a pending bonus (localStorage read modelled
as the bonus argument). -/
def startGame (d : Difficulty) (bonus : ℤ) (now : ℤ) (g : GameState) : GameState :=
  let g1 :=
    { g with
      difficulty := d
      lives := baseLives d
      enemySpawnRate := baseSpawnRate d
      enemySpeedMult := baseSpeedMult d
      player := { g.player with speed := basePlayerSpeed d }
      gameStarted := true
      gameRunning := true
      startTime := now
      waveNumber := 1
      killsThisWave := 0
      konamiBonus := bonus
      meteorActive := false
      meteorTimer := 0
      meteors := []
      lastMeteorCheck := 0
      idleRunning := false }
  if 0 < g1.konamiBonus then { g1 with score := g1.konamiBonus, konamiBonus := 0 }
  else g1

/-- boom() helper: the list of 12 particles pushed at (x, y), drawing the
random stream three times per particle in the JS evaluation order
(vx, vy, size). -/
def mkParticles (x y : ℚ) (color : String) (env : Env) (k : ℕ) : ℕ → List Particle
  | 0 => []
  | n + 1 =>
      { x := x, y := y,
        vx := (env.rng k - 1/2) * 8,
        vy := (env.rng (k + 1) - 1/2) * 8,
        life := 25, color := color,
        size := env.rng (k + 2) * 4 + 2 } :: mkParticles x y color env (k + 3) n

/-- boom() from src/app.js lines 728-739: append 12 particles. -/
def boom (x y : ℚ) (color : String) (env : Env) (g : GameState) (k : ℕ) : GK :=
  ⟨{ g with particles := g.particles ++ mkParticles x y color env k 12 }, k + 36⟩

/-- The shotsHit++ performed when a live bullet collides (src/app.js lines
1002 and 856). -/
def hitState (g : GameState) : GameState := { g with shotsHit := g.shotsHit + 1 }

/-- The health-- of an enemy on a bullet hit (src/app.js line 1003). -/
def damagedE (e : Enemy) : Enemy := { e with health := e.health - 1 }

/-- The health-- of a meteor on a bullet hit (src/app.js line 857). -/
def damagedM (m : Meteor) : Meteor := { m with health := m.health - 1 }

/-- Write the swept bullet array back into the store. -/
def setBullets (bs : List Bullet) (g : GameState) : GameState := { g with bullets := bs }

/-- The lives-- on an entity-player collision (src/app.js lines 1043, 872). -/
def loseLife (g : GameState) : GameState := { g with lives := g.lives - 1 }

/-- A score increase of n points. -/
def addScore (n : ℤ) (g : GameState) : GameState := { g with score := g.score + n }

/-- The end-of-shower block of updateMeteors() (src/app.js lines 837-843):
close the shower and award the +50 survival bonus. -/
def endShower (g : GameState) : GameState :=
  { g with meteorActive := false, score := g.score + 50 }

/-- Write the processed enemy array back into the store. -/
def setEnemies (es : List Enemy) (g : GameState) : GameState := { g with enemies := es }

/-- Write the processed meteor array back into the store. -/
def setMeteors (ms : List Meteor) (g : GameState) : GameState := { g with meteors := ms }

/-- The wave-advance block of update() (src/app.js lines 1015-1035),
executed when killsThisWave has reached KILLS_PER_WAVE: reset the counter,
advance the wave, and recompute the spawn interval and speed multiplier
from the capped wave bonus wb = min(waveNumber - 1, 9) of the new wave. -/
def waveAdvance (g : GameState) : GameState :=
  let wn := g.waveNumber + 1
  let wb : ℕ := min (wn - 1) 9
  { g with
    killsThisWave := 0
    waveNumber := wn
    enemySpawnRate := max 20 (baseSpawnRate g.difficulty - wb * 3)
    enemySpeedMult := baseSpeedMult g.difficulty + (wb : ℚ) * (2/25) }

/-- The kill block of the bullet loop (src/app.js lines 1005-1035, minus
the dead flag set at the call site): particle burst at the enemy center,
score by type, kill counters, then the wave check. -/
def killReward (env : Env) (e : Enemy) (g : GameState) (k : ℕ) : GK :=
  let r := boom (e.x + 24) (e.y + 24) "#f7c5a8" env g k
  let g1 := { r.st with
              score := r.st.score + (if e.type = EType.fast then 20 else 10)
              enemiesKilled := r.st.enemiesKilled + 1
              killsThisWave := r.st.killsThisWave + 1 }
  if KILLS_PER_WAVE ≤ g1.killsThisWave then ⟨waveAdvance g1, r.k⟩ else ⟨g1, r.k⟩

/-- Result of running one enemy against the bullet store. -/
structure SweepRes where
  bullets : List Bullet
  enemy : Enemy
  st : GameState
  k : ℕ
  broke : Bool

/-- The inner bullet loop of update() for one enemy (src/app.js lines
997-1039).  The JS loop walks the array from the highest index down, so
the list tail is processed before the head; broke models the break
statement, which skips the remaining (lower-index) bullets once the enemy
has been destroyed.  Dead bullets are skipped; a hit consumes the bullet,
counts a hit and decrements health; health reaching 0 triggers the kill
block and the break. -/
def bulletSweep (env : Env) (e : Enemy) (g : GameState) (k : ℕ) :
    List Bullet → SweepRes
  | [] => ⟨[], e, g, k, false⟩
  | b :: rest =>
      let r := bulletSweep env e g k rest
      if r.broke then ⟨b :: r.bullets, r.enemy, r.st, r.k, true⟩
      else if b.dead then ⟨b :: r.bullets, r.enemy, r.st, r.k, false⟩
      else if collides b.rect r.enemy.rect then
        let b1 := { b with dead := true }
        let g1 := hitState r.st
        let e1 := damagedE r.enemy
        if e1.health ≤ 0 then
          let r2 := killReward env e1 g1 r.k
          ⟨b1 :: r.bullets, { e1 with dead := true }, r2.st, r2.k, true⟩
        else ⟨b1 :: r.bullets, e1, g1, r.k, false⟩
      else ⟨b :: r.bullets, r.enemy, r.st, r.k, false⟩

/-- Result of processing one enemy in the collision loop. -/
structure EStep where
  enemy : Enemy
  st : GameState
  k : ℕ

/-- One iteration of the enemy loop (src/app.js lines 993-1051): move the
enemy, run the bullet sweep, then the enemy-player collision, which costs
a life, kills the enemy and ends the game at 0 lives. -/
def stepEnemy (env : Env) (e0 : Enemy) (g : GameState) (k : ℕ) : EStep :=
  let e1 := { e0 with y := e0.y + e0.speed }
  let r := bulletSweep env e1 g k g.bullets
  let g1 := setBullets r.bullets r.st
  if !r.enemy.dead && collides r.enemy.rect g1.player.rect then
    let r2 := boom (g1.player.x + 24) (g1.player.y + 16) "#f5e6a3" env g1 r.k
    let g2 := loseLife r2.st
    let g3 := if g2.lives ≤ 0 then endGame env.now g2 else g2
    ⟨{ r.enemy with dead := true }, g3, r2.k⟩
  else ⟨r.enemy, g1, r.k⟩

/-- Result of the whole enemy loop. -/
structure EPhase where
  enemies : List Enemy
  st : GameState
  k : ℕ

/-- The enemy loop of update(), in ascending index order. -/
def enemyPhase (env : Env) : List Enemy → GameState → ℕ → EPhase
  | [], g, k => ⟨[], g, k⟩
  | e :: rest, g, k =>
      let r := stepEnemy env e g k
      let r2 := enemyPhase env rest r.st r.k
      ⟨r.enemy :: r2.enemies, r2.st, r2.k⟩

/-- spawnEnemy() from src/app.js lines 712-722, drawing the random stream
for x, speed jitter and type in object-literal order. -/
def spawnEnemy (env : Env) (g : GameState) (k : ℕ) : GK :=
  ⟨{ g with enemies := g.enemies ++
      [{ x := env.rng k * 552, y := -50, w := 48, h := 48,
         speed := (2 + env.rng (k + 1) * 3) * g.enemySpeedMult,
         health := 2,
         type := if env.rng (k + 2) > 7/10 then EType.fast else EType.normal }] },
   k + 3⟩

/-- spawnMeteor() from src/app.js lines 811-820. -/
def spawnMeteor (env : Env) (g : GameState) (k : ℕ) : GK :=
  ⟨{ g with meteors := g.meteors ++
      [{ x := env.rng k * 580, y := -20, w := 16, h := 16,
         speed := 6 + env.rng (k + 1) * 4, health := 1 }] },
   k + 2⟩

/-- Result of running one meteor against the bullet store. -/
structure MSweepRes where
  bullets : List Bullet
  meteor : Meteor
  st : GameState
  k : ℕ
  broke : Bool

/-- The bullet loop inside the meteor loop (src/app.js lines 851-867),
highest index first; the break fires when the meteor is destroyed. -/
def meteorBulletSweep (env : Env) (m : Meteor) (g : GameState) (k : ℕ) :
    List Bullet → MSweepRes
  | [] => ⟨[], m, g, k, false⟩
  | b :: rest =>
      let r := meteorBulletSweep env m g k rest
      if r.broke then ⟨b :: r.bullets, r.meteor, r.st, r.k, true⟩
      else if b.dead then ⟨b :: r.bullets, r.meteor, r.st, r.k, false⟩
      else if collides b.rect r.meteor.rect then
        let b1 := { b with dead := true }
        let g1 := hitState r.st
        let m1 := damagedM r.meteor
        if m1.health ≤ 0 then
          let r2 := boom (m1.x + 8) (m1.y + 8) "#ff6633" env g1 r.k
          ⟨b1 :: r.bullets, { m1 with dead := true }, addScore 5 r2.st, r2.k, true⟩
        else ⟨b1 :: r.bullets, m1, g1, r.k, false⟩
      else ⟨b :: r.bullets, r.meteor, r.st, r.k, false⟩

/-- Result of processing one meteor. -/
structure MStep where
  meteor : Meteor
  st : GameState
  k : ℕ

/-- One iteration of the meteor loop (src/app.js lines 846-883): move,
bullet sweep, meteor-player collision (a life lost, game over at 0), and
the off-screen mark. -/
def stepMeteor (env : Env) (m0 : Meteor) (g : GameState) (k : ℕ) : MStep :=
  let m1 := { m0 with y := m0.y + m0.speed }
  let r := meteorBulletSweep env m1 g k g.bullets
  let g1 := setBullets r.bullets r.st
  let s :=
    if !r.meteor.dead && collides r.meteor.rect g1.player.rect then
      let r2 := boom (g1.player.x + 24) (g1.player.y + 16) "#ff6633" env g1 r.k
      let g2 := loseLife r2.st
      let g3 := if g2.lives ≤ 0 then endGame env.now g2 else g2
      (⟨{ r.meteor with dead := true }, g3, r2.k⟩ : MStep)
    else ⟨r.meteor, g1, r.k⟩
  if decide (820 < s.meteor.y) then ⟨{ s.meteor with dead := true }, s.st, s.k⟩
  else s

/-- Result of the whole meteor loop. -/
structure MPhase where
  meteors : List Meteor
  st : GameState
  k : ℕ

/-- The meteor loop, which the JS walks from the highest index down, so
the list tail is processed before the head. -/
def meteorPhase (env : Env) : List Meteor → GameState → ℕ → MPhase
  | [], g, k => ⟨[], g, k⟩
  | m :: rest, g, k =>
      let r := meteorPhase env rest g k
      let r2 := stepMeteor env m r.st r.k
      ⟨r2.meteor :: r.meteors, r2.st, r2.k⟩

/-- updateMeteors() from src/app.js lines 826-891: no-op when no shower is
active; spawn for the first 5 s of the shower every 8th frame; close the
shower (with the +50 bonus) after 6 s once all meteors are gone; then the
meteor loop and the compaction of dead meteors. -/
def updateMeteors (env : Env) (g : GameState) (k : ℕ) : GK :=
  if !g.meteorActive then ⟨g, k⟩
  else
    let elapsed := env.now - g.meteorTimer
    let r1 : GK :=
      if decide (elapsed < 5000) && g.frame % 8 == 0 then spawnMeteor env g k
      else ⟨g, k⟩
    let g2 :=
      if decide (6000 < elapsed) && r1.st.meteors.isEmpty then endShower r1.st
      else r1.st
    let r2 := meteorPhase env g2.meteors g2 r1.k
    ⟨setMeteors (r2.meteors.filter (fun m => !m.dead)) r2.st, r2.k⟩

/-- Bullet movement of update(): constant upward speed. -/
def moveBullet (b : Bullet) : Bullet := { b with y := b.y - b.speed }

/-- Particle integration of update() (src/app.js lines 1067-1077). -/
def stepParticle (p : Particle) : Particle :=
  { p with x := p.x + p.vx, y := p.y + p.vy, vy := p.vy + 1/5, life := p.life - 1 }

/-- The meteor-shower trigger check of update() (src/app.js lines
1079-1089) together with the guard of triggerMeteorShower(). -/
def meteorCheck (env : Env) (g : GameState) (k : ℕ) : GK :=
  if !g.meteorActive && decide (10000 < g.elapsedTime) then
    if decide (60 < (g.frame : ℤ) - (g.lastMeteorCheck : ℤ)) then
      let g1 := { g with lastMeteorCheck := g.frame }
      if decide (env.rng k < 11/500) then
        ⟨{ g1 with meteorActive := true, meteorTimer := env.now }, k + 1⟩
      else ⟨g1, k + 1⟩
    else ⟨g, k⟩
  else ⟨g, k⟩

/-- The opening of update(): advance the frame counter and refresh the
elapsed-time accumulator from the wall clock. -/
def tickStart (env : Env) (g : GameState) : GameState :=
  { g with frame := g.frame + 1, elapsedTime := env.now - g.startTime }

/-- The held-input block of update() (src/app.js lines 963-968): clamped
horizontal movement, then the held-space fire attempt (the rate limiter
lives inside shoot). -/
def inputPhase (env : Env) (g : GameState) : GameState :=
  let g2 :=
    if env.keyLeft then
      { g with player := { g.player with x := max 0 (g.player.x - g.player.speed) } }
    else g
  let g3 :=
    if env.keyRight then
      { g2 with player := { g2.player with x := min 552 (g2.player.x + g2.player.speed) } }
    else g2
  if env.keyFire then shoot env.now g3 else g3

/-- Bullet movement and off-screen culling (src/app.js lines 970-978). -/
def bulletMovePhase (g : GameState) : GameState :=
  { g with bullets := (g.bullets.map moveBullet).filter (fun b => decide (-20 < b.y)) }

/-- The spawner (src/app.js line 981): deterministic modulo trigger. -/
def spawnPhase (env : Env) (g : GameState) : GK :=
  if g.frame % g.enemySpawnRate == 0 then spawnEnemy env g 0 else ⟨g, 0⟩

/-- The enemy loop wrapped as a phase: run it over the enemy store and
write the processed enemies back. -/
def collisionPhase (env : Env) (r : GK) : GK :=
  let r7 := enemyPhase env r.st.enemies r.st r.k
  ⟨setEnemies r7.enemies r7.st, r7.k⟩

/-- Compaction of consumed bullets (src/app.js lines 1054-1058). -/
def compactBullets (g : GameState) : GameState :=
  { g with bullets := g.bullets.filter (fun b => !b.dead) }

/-- Compaction of dead or escaped enemies (src/app.js lines 1061-1065). -/
def compactEnemies (g : GameState) : GameState :=
  { g with enemies := g.enemies.filter (fun e => !e.dead && decide (e.y < 850)) }

/-- Particle integration and expiry (src/app.js lines 1067-1077). -/
def particlePhase (g : GameState) : GameState :=
  { g with particles := (g.particles.map stepParticle).filter (fun p => decide (0 < p.life)) }

/-- update() from src/app.js lines 957-1091, the per-tick simulation step:
no-op unless running and unpaused; otherwise advance the frame counter and
elapsed time, apply held movement keys with clamping, apply held fire (the
guard inside shoot applies), move and cull bullets, spawn an enemy on the
frame cadence, run the enemy loop, compact bullets and enemies, integrate
particles, and run the meteor-shower logic.  The decorative star-field
scroll (render state only) is omitted. -/
def update (env : Env) (g : GameState) : GameState :=
  if !g.gameRunning || g.gamePaused then g
  else
    let g5 := bulletMovePhase (inputPhase env (tickStart env g))
    let r7 := collisionPhase env (spawnPhase env g5)
    let g10 := particlePhase (compactEnemies (compactBullets r7.st))
    let r11 := meteorCheck env g10 r7.k
    (updateMeteors env r11.st r11.k).st

/-- Number of live (non-consumed) bullets in a bullet store. -/
def liveBullets (bs : List Bullet) : ℕ :=
  (bs.filter (fun b => !b.dead)).length

/-- The creation timestamps of the bullets produced by a sequence of fire
attempts at the given wall-clock times (each attempt is one shoot call). -/
def fireTimes (g : GameState) : List ℤ → List ℤ
  | [] => []
  | t :: ts =>
      if shotAccepted t g then t :: fireTimes (shoot t g) ts
      else fireTimes (shoot t g) ts

/-- States reachable through the externally triggered engine operations:
a reset (also the way the game section is entered), simulation ticks, fire
attempts, pause toggles and game starts. -/
inductive Reachable : GameState → Prop
  | reset (g : GameState) : Reachable (resetGame g)
  | step (env : Env) (g : GameState) : Reachable g → Reachable (update env g)
  | fire (t : ℤ) (g : GameState) : Reachable g → Reachable (shoot t g)
  | pause (t : ℤ) (g : GameState) : Reachable g → Reachable (togglePause t g)
  | start (d : Difficulty) (bonus t : ℤ) (g : GameState) :
      Reachable g → Reachable (startGame d bonus t g)

/-- A fixed environment for concrete executions: keys released, wall clock
at 0, a constant-zero random stream. -/
def env0 : Env :=
  { now := 0, keyLeft := false, keyRight := false, keyFire := false, rng := fun _ => 0 }

/-- A concrete mid-game state used by the concrete executions below. -/
def gBase : GameState :=
  { player := { x := 275, y := 720, w := 48, h := 32, speed := 6 }
    bullets := [], enemies := [], particles := [], meteors := []
    score := 0, lives := 3, gameRunning := true, gamePaused := false, gameStarted := true
    frame := 0, waveNumber := 1, killsThisWave := 0, shotsFired := 2, shotsHit := 0
    enemiesKilled := 0, startTime := 0, elapsedTime := 0, difficulty := Difficulty.normal
    enemySpawnRate := 60, enemySpeedMult := 1, konamiBonus := 0, lastShot := 0
    meteorActive := false, meteorTimer := 0, lastMeteorCheck := 0, idleRunning := false }

/-- One enemy of health 2 with two live bullets overlapping it: both
bullets hit it within the same tick. -/
def gTwoBullets : GameState :=
  { gBase with
    enemies := [{ x := 0, y := 0, w := 48, h := 48, speed := 1, health := 2,
                  type := EType.normal }]
    bullets := [{ x := 0, y := 30, w := 8, h := 16, speed := 14 },
                { x := 2, y := 30, w := 8, h := 16, speed := 14 }] }

/-- A running state at one life with an enemy overlapping the player. -/
def gLastLife : GameState :=
  { gBase with
    lives := 1
    enemies := [{ x := 275, y := 719, w := 48, h := 48, speed := 1, health := 2,
                  type := EType.normal }] }

/-- A concrete state one kill short of the wave threshold. -/
def gWaveEdge : GameState := { gBase with killsThisWave := 7 }

/-- A health-1 enemy used to exercise the killing-hit break. -/
def eBreak : Enemy :=
  { x := 0, y := 0, w := 48, h := 48, speed := 1, health := 1, type := EType.normal }

/-- A live bullet overlapping eBreak. -/
def bBreak : Bullet := { x := 0, y := 10, w := 8, h := 16, speed := 14 }

/-- A sample fast enemy, used to instantiate the kill block. -/
def eSample : Enemy :=
  { x := 100, y := 100, w := 48, h := 48, speed := 2, health := 0, type := EType.fast }

/-- Accounting invariant: every hit was scored by a distinct consumed
bullet, so the hits plus the still-live bullets never exceed the shots
fired. -/
def InvShots (g : GameState) : Prop :=
  g.shotsHit + liveBullets g.bullets ≤ g.shotsFired

/-- Wave-counter invariant: killsThisWave stays strictly below the
threshold across step boundaries. -/
def InvWave (g : GameState) : Prop :=
  g.killsThisWave ≤ KILLS_PER_WAVE - 1

/-- Lifecycle guard: a state with no lives left is not running. -/
def LivesGuard (g : GameState) : Prop :=
  g.lives ≤ 0 → g.gameRunning = false

/-- The AABB test unfolded to its four strict comparisons. -/
lemma collides_iff (a b : Rect) :
    collides a b = true ↔
      (a.x < b.x + b.w ∧ b.x < a.x + a.w ∧ a.y < b.y + b.h ∧ b.y < a.y + a.h) := by
  simp [collides, and_assoc]

/-- Claim C3: collides(a, b) returns true iff the rectangles overlap on
both axes with strict inequality on all four sides; rectangles that merely
touch along an edge do not collide, while non-strict containment of one
rectangle in the other (with positive extent) does collide.  The function
is pure: in this embedding it is a plain function of its two arguments. -/
theorem collides_spec :
    (∀ a b : Rect, collides a b = true ↔
        (a.x < b.x + b.w ∧ b.x < a.x + a.w ∧ a.y < b.y + b.h ∧ b.y < a.y + a.h))
    ∧ (∀ a b : Rect, a.x + a.w = b.x → collides a b = false)
    ∧ (∀ a b : Rect, 0 < a.w → 0 < a.h →
        b.x ≤ a.x → a.x + a.w ≤ b.x + b.w → b.y ≤ a.y → a.y + a.h ≤ b.y + b.h →
        collides a b = true) := by
  refine ⟨collides_iff, fun a b h => ?_, fun a b hw hh h1 h2 h3 h4 => ?_⟩
  · cases hc : collides a b
    · rfl
    · have hlt := ((collides_iff a b).mp hc).2.1
      rw [← h] at hlt
      exact absurd hlt (lt_irrefl _)
  · exact (collides_iff a b).mpr ⟨by linarith, by linarith, by linarith, by linarith⟩

/-- Witness for C3 at concrete rectangles: two overlapping unit squares
collide, two edge-touching squares do not, and a contained square does. -/
theorem collides_witness :
    collides ⟨0, 0, 2, 2⟩ ⟨1, 1, 2, 2⟩ = true
    ∧ collides ⟨0, 0, 1, 1⟩ ⟨1, 0, 1, 1⟩ = false
    ∧ collides ⟨1, 1, 1, 1⟩ ⟨0, 0, 3, 3⟩ = true := by
  refine ⟨?_, ?_, ?_⟩
  · exact (collides_spec.1 ⟨0, 0, 2, 2⟩ ⟨1, 1, 2, 2⟩).mpr (by norm_num)
  · exact collides_spec.2.1 ⟨0, 0, 1, 1⟩ ⟨1, 0, 1, 1⟩ (by norm_num)
  · exact collides_spec.2.2 ⟨1, 1, 1, 1⟩ ⟨0, 0, 3, 3⟩ (by norm_num) (by norm_num)
      (by norm_num) (by norm_num) (by norm_num) (by norm_num)

/-- Claim C7: the end-of-run accuracy equals round(shotsHit / shotsFired
* 100) whenever shotsFired is positive and 0 when shotsFired is 0 (the
explicit guard avoids the division by zero); in particular it is 0 with no
shots fired and 50 for 5 hits out of 10. -/
theorem accuracy_spec :
    (∀ h : ℕ, accuracy h 0 = 0)
    ∧ accuracy 5 10 = 50
    ∧ (∀ h f : ℕ, 0 < f → accuracy h f = round ((h : ℚ) / (f : ℚ) * 100)) := by
  refine ⟨fun h => rfl, ?_, fun h f hf => by simp [accuracy, hf]⟩
  show round ((5 : ℚ) / 10 * 100) = 50
  norm_num

/-- Witness for C7: the positive-denominator branch applied at 5 hits of
10 shots evaluates to 50. -/
theorem accuracy_witness : (0 : ℕ) < 10 ∧ accuracy 5 10 = 50 :=
  ⟨by decide, accuracy_spec.2.1⟩

/-- Claim C8: pausing snapshots elapsedTime = now - startTime and resuming
restores startTime = now - elapsedTime, so for a running unpaused state the
elapsed time read immediately before the pause equals the elapsed time read
immediately after a resume performed at any later instant. -/
theorem pause_resume_elapsed :
    ∀ (g : GameState) (t1 t2 : ℤ), g.gamePaused = false →
      (togglePause t1 g).gamePaused = true
      ∧ (togglePause t1 g).elapsedTime = t1 - g.startTime
      ∧ (togglePause t2 (togglePause t1 g)).gamePaused = false
      ∧ t2 - (togglePause t2 (togglePause t1 g)).startTime = t1 - g.startTime := by
  intro g t1 t2 h
  refine ⟨by simp [togglePause, h], by simp [togglePause, h], by simp [togglePause, h], ?_⟩
  simp [togglePause, h]

/-- Witness for C8: pause at time 500 and resume at time 9000 from the
concrete running state; the elapsed reading is 500 on both sides. -/
theorem pause_resume_witness :
    gBase.gamePaused = false
    ∧ 9000 - (togglePause 9000 (togglePause 500 gBase)).startTime = 500 - gBase.startTime :=
  ⟨rfl, (pause_resume_elapsed gBase 500 9000 rfl).2.2.2⟩

/-- Claim C9: resetGame is idempotent, and the reset state has all entity
stores empty, score 0, lives at the initial default 3, the frame and the
statistics counters zero, waveNumber 1, and the idle difficulty-select
lifecycle (not started, not running, not paused, idle animation on). -/
theorem reset_idempotent :
    ∀ g : GameState,
      resetGame (resetGame g) = resetGame g
      ∧ (resetGame g).bullets = [] ∧ (resetGame g).enemies = []
      ∧ (resetGame g).particles = [] ∧ (resetGame g).meteors = []
      ∧ (resetGame g).score = 0 ∧ (resetGame g).lives = 3
      ∧ (resetGame g).frame = 0 ∧ (resetGame g).shotsFired = 0
      ∧ (resetGame g).shotsHit = 0 ∧ (resetGame g).enemiesKilled = 0
      ∧ (resetGame g).killsThisWave = 0 ∧ (resetGame g).waveNumber = 1
      ∧ (resetGame g).gameStarted = false ∧ (resetGame g).gameRunning = false
      ∧ (resetGame g).gamePaused = false ∧ (resetGame g).idleRunning = true :=
  fun _ => ⟨rfl, rfl, rfl, rfl, rfl, rfl, rfl, rfl, rfl, rfl, rfl, rfl, rfl, rfl,
    rfl, rfl, rfl⟩

/-- An accepted fire attempt performs exactly the successful branch of
shoot(). -/
lemma shoot_accepted_eq (t : ℤ) (g : GameState) (h : shotAccepted t g = true) :
    shoot t g =
      { g with
        lastShot := t
        bullets := g.bullets ++ [{ x := g.player.x + 24, y := g.player.y,
                                   w := 8, h := 16, speed := 14 }]
        shotsFired := g.shotsFired + 1 } := by
  simp only [shotAccepted, Bool.and_eq_true, Bool.not_eq_true', decide_eq_true_eq] at h
  obtain ⟨⟨hr, hp⟩, hl⟩ := h
  simp [shoot, hr, hp, not_lt.mpr hl]

/-- A rejected fire attempt leaves the state unchanged. -/
lemma shoot_rejected_eq (t : ℤ) (g : GameState) (h : shotAccepted t g = false) :
    shoot t g = g := by
  cases hr : g.gameRunning <;> cases hp : g.gamePaused
  · simp [shoot, hr]
  · simp [shoot, hp]
  · simp only [shotAccepted, hr, hp, Bool.not_false, Bool.true_and,
      decide_eq_false_iff_not, not_le] at h
    simp [shoot, hr, hp, h]
  · simp [shoot, hp]

/-- Every bullet created by a sequence of fire attempts is stamped at
least 150 ms after the lastShot timestamp of the initial state. -/
lemma mem_fireTimes_lb :
    ∀ (ts : List ℤ) (g : GameState) (x : ℤ), x ∈ fireTimes g ts → g.lastShot + 150 ≤ x := by
  intro ts
  induction ts with
  | nil => intro g x hx; simp [fireTimes] at hx
  | cons t ts ih =>
      intro g x hx
      rw [fireTimes] at hx
      by_cases hA : shotAccepted t g = true
      · rw [if_pos hA] at hx
        have hl : 150 ≤ t - g.lastShot := by
          simp only [shotAccepted, Bool.and_eq_true, decide_eq_true_eq] at hA
          exact hA.2
        rcases List.mem_cons.mp hx with rfl | hx2
        · omega
        · have h2 := ih (shoot t g) x hx2
          rw [shoot_accepted_eq t g hA] at h2
          simp only at h2
          omega
      · rw [if_neg hA] at hx
        have h2 := ih (shoot t g) x hx
        rw [shoot_rejected_eq t g (Bool.not_eq_true _ ▸ hA)] at h2
        exact h2

/-- Consecutive (indeed, all ordered pairs of) accepted fire attempts are
at least 150 ms apart. -/
lemma fireTimes_pairwise :
    ∀ (ts : List ℤ) (g : GameState),
      List.Pairwise (fun a b : ℤ => a + 150 ≤ b) (fireTimes g ts) := by
  intro ts
  induction ts with
  | nil => intro g; rw [fireTimes]; exact List.Pairwise.nil
  | cons t ts ih =>
      intro g
      rw [fireTimes]
      by_cases hA : shotAccepted t g = true
      · rw [if_pos hA]
        refine List.Pairwise.cons (fun x hx => ?_) (ih (shoot t g))
        have h2 := mem_fireTimes_lb ts (shoot t g) x hx
        rw [shoot_accepted_eq t g hA] at h2
        simpa using h2
      · rw [if_neg hA]
        exact ih (shoot t g)

/-- Claim C4: no two bullets are created less than 150 ms apart by any
sequence of fire attempts (the creation timestamps are pairwise at least
150 ms apart); an attempt less than 150 ms after the last successful shot
leaves the state (in particular shotsFired and the bullet store)
unchanged; a successful fire in a running unpaused game increments
shotsFired by one and appends exactly one bullet at
(player.x + 24, player.y). -/
theorem fire_rate_limit :
    (∀ (g : GameState) (ts : List ℤ),
        List.Pairwise (fun a b : ℤ => a + 150 ≤ b) (fireTimes g ts))
    ∧ (∀ (g : GameState) (t : ℤ), t - g.lastShot < 150 → shoot t g = g)
    ∧ (∀ (g : GameState) (t : ℤ), g.gameRunning = true → g.gamePaused = false →
        150 ≤ t - g.lastShot →
        (shoot t g).shotsFired = g.shotsFired + 1
        ∧ (shoot t g).bullets = g.bullets ++
            [{ x := g.player.x + 24, y := g.player.y, w := 8, h := 16, speed := 14 }]
        ∧ (shoot t g).lastShot = t) := by
  refine ⟨fun g ts => fireTimes_pairwise ts g, fun g t h => ?_, fun g t hr hp hl => ?_⟩
  · unfold shoot
    split
    · rfl
    · simp [h]
  · have hA : shotAccepted t g = true := by
      simp [shotAccepted, hr, hp, hl]
    rw [shoot_accepted_eq t g hA]
    exact ⟨rfl, rfl, rfl⟩

/-- Witness for C4: from the concrete running state, attempts at times
1000, 1100, 1200 create bullets at 1000 and 1200 only; the attempt at 1100
is rejected and the one at 1000 counts one shot. -/
theorem fire_rate_limit_witness :
    fireTimes gBase [1000, 1100, 1200] = [1000, 1200]
    ∧ List.Pairwise (fun a b : ℤ => a + 150 ≤ b) (fireTimes gBase [1000, 1100, 1200])
    ∧ (1100 : ℤ) - (shoot 1000 gBase).lastShot < 150
    ∧ shoot 1100 (shoot 1000 gBase) = shoot 1000 gBase
    ∧ (shoot 1000 gBase).shotsFired = gBase.shotsFired + 1 :=
  ⟨by decide, fire_rate_limit.1 gBase [1000, 1100, 1200],
   by decide, fire_rate_limit.2.1 (shoot 1000 gBase) 1100 (by decide),
   (fire_rate_limit.2.2 gBase 1000 rfl rfl (by decide)).1⟩

/-- The spawn interval given by the engine formula never increases from
one wave to the next. -/
lemma spawnRateFor_succ_le (d : Difficulty) (n : ℕ) :
    spawnRateFor d (n + 1) ≤ spawnRateFor d n := by
  cases d <;> simp only [spawnRateFor, baseSpawnRate] <;> omega

/-- The speed multiplier given by the engine formula never decreases from
one wave to the next. -/
lemma speedMultFor_le_succ (d : Difficulty) (n : ℕ) :
    speedMultFor d n ≤ speedMultFor d (n + 1) := by
  unfold speedMultFor
  refine add_le_add_left (mul_le_mul_of_nonneg_right ?_ (by norm_num)) _
  have h : min (n - 1) 9 ≤ min ((n + 1) - 1) 9 := by omega
  exact Nat.cast_le.mpr h

/-- Claim C2: when killsThisWave reaches 8 (its value was 7 and the kill
block increments it), the step resets the counter, increments waveNumber,
and with wave bonus wb = min(waveNumber - 1, 9) of the new wave sets the
spawn interval to max(20, base - wb*3) (base 80 easy, 60 normal, 40 hard;
never below 20 and never above the previous formula value) and the speed
multiplier to base + wb*0.08 (base 0.7 easy, 1 normal, 1.5 hard; never
below the previous formula value, with no explicit cap). -/
theorem wave_advancement_spec :
    ∀ (env : Env) (e : Enemy) (g : GameState) (k : ℕ), g.killsThisWave = 7 →
      (killReward env e g k).st.killsThisWave = 0
      ∧ (killReward env e g k).st.waveNumber = g.waveNumber + 1
      ∧ (killReward env e g k).st.enemySpawnRate = spawnRateFor g.difficulty (g.waveNumber + 1)
      ∧ (killReward env e g k).st.enemySpeedMult = speedMultFor g.difficulty (g.waveNumber + 1)
      ∧ 20 ≤ (killReward env e g k).st.enemySpawnRate
      ∧ (g.enemySpawnRate = spawnRateFor g.difficulty g.waveNumber →
          (killReward env e g k).st.enemySpawnRate ≤ g.enemySpawnRate)
      ∧ (g.enemySpeedMult = speedMultFor g.difficulty g.waveNumber →
          g.enemySpeedMult ≤ (killReward env e g k).st.enemySpeedMult) := by
  intro env e g k h
  have hst : (killReward env e g k).st =
      waveAdvance
        { g with
          particles := g.particles ++ mkParticles (e.x + 24) (e.y + 24) "#f7c5a8" env k 12
          score := g.score + (if e.type = EType.fast then 20 else 10)
          enemiesKilled := g.enemiesKilled + 1
          killsThisWave := g.killsThisWave + 1 } := by
    unfold killReward boom
    dsimp only
    rw [if_pos (by simp [h, KILLS_PER_WAVE])]
  rw [hst]
  unfold waveAdvance
  dsimp only
  refine ⟨rfl, rfl, rfl, rfl, le_max_left _ _, fun hr => ?_, fun hm => ?_⟩
  · rw [hr]
    exact spawnRateFor_succ_le g.difficulty g.waveNumber
  · rw [hm]
    exact speedMultFor_le_succ g.difficulty g.waveNumber

/-- Witness for C2: the kill block applied to the concrete state one kill
short of the threshold (wave 1, normal difficulty): the counter resets,
the wave becomes 2, the spawn interval drops from 60 to 57 and the speed
multiplier rises from 1 to 1.08. -/
theorem wave_advancement_witness :
    gWaveEdge.killsThisWave = 7
    ∧ (killReward env0 eSample gWaveEdge 0).st.killsThisWave = 0
    ∧ (killReward env0 eSample gWaveEdge 0).st.waveNumber = 2
    ∧ (killReward env0 eSample gWaveEdge 0).st.enemySpawnRate = 57
    ∧ (killReward env0 eSample gWaveEdge 0).st.enemySpeedMult = 27/25 := by
  have h := wave_advancement_spec env0 eSample gWaveEdge 0 rfl
  refine ⟨rfl, h.1, ?_, ?_, ?_⟩
  · rw [h.2.1]
    rfl
  · rw [h.2.2.1]
    decide
  · rw [h.2.2.2.1]
    show speedMultFor Difficulty.normal 2 = 27 / 25
    norm_num [speedMultFor, baseSpeedMult]

lemma liveBullets_nil : liveBullets [] = 0 := rfl

lemma liveBullets_cons (b : Bullet) (bs : List Bullet) :
    liveBullets (b :: bs) =
      (if b.dead = true then liveBullets bs else liveBullets bs + 1) := by
  cases hb : b.dead <;> simp [liveBullets, List.filter_cons, hb]

lemma liveBullets_append (xs ys : List Bullet) :
    liveBullets (xs ++ ys) = liveBullets xs + liveBullets ys := by
  simp [liveBullets, List.filter_append]

lemma liveBullets_compact (bs : List Bullet) :
    liveBullets (bs.filter (fun b => !b.dead)) = liveBullets bs := by
  simp [liveBullets, List.filter_filter]

lemma liveBullets_cons_dead (b : Bullet) (bs : List Bullet) (h : b.dead = true) :
    liveBullets (b :: bs) = liveBullets bs := by
  rw [liveBullets_cons, if_pos h]

lemma liveBullets_cons_live (b : Bullet) (bs : List Bullet) (h : b.dead = false) :
    liveBullets (b :: bs) = liveBullets bs + 1 := by
  rw [liveBullets_cons, if_neg]
  rw [h]
  exact Bool.false_ne_true

lemma liveBullets_filter_le (p : Bullet → Bool) (bs : List Bullet) :
    liveBullets (bs.filter p) ≤ liveBullets bs := by
  induction bs with
  | nil => simp [liveBullets]
  | cons b bs ih =>
      rw [List.filter_cons]
      cases hp : p b
      · rw [if_neg Bool.false_ne_true]
        refine le_trans ih ?_
        by_cases hd : b.dead = true
        · rw [liveBullets_cons_dead b bs hd]
        · rw [liveBullets_cons_live b bs (Bool.not_eq_true _ ▸ hd)]
          omega
      · rw [if_pos rfl]
        by_cases hd : b.dead = true
        · rw [liveBullets_cons_dead b _ hd, liveBullets_cons_dead b _ hd]
          exact ih
        · have hd2 := (Bool.not_eq_true _ ▸ hd : b.dead = false)
          rw [liveBullets_cons_live b _ hd2, liveBullets_cons_live b _ hd2]
          omega

lemma liveBullets_map_move (bs : List Bullet) :
    liveBullets (bs.map moveBullet) = liveBullets bs := by
  induction bs with
  | nil => rfl
  | cons b bs ih =>
      rw [List.map_cons, liveBullets_cons, liveBullets_cons]
      have hd : (moveBullet b).dead = b.dead := rfl
      rw [hd, ih]

lemma hitState_shotsHit (g : GameState) : (hitState g).shotsHit = g.shotsHit + 1 := rfl

lemma hitState_shotsFired (g : GameState) : (hitState g).shotsFired = g.shotsFired := rfl

lemma hitState_bullets (g : GameState) : (hitState g).bullets = g.bullets := rfl

lemma hitState_lives (g : GameState) : (hitState g).lives = g.lives := rfl

lemma hitState_gameRunning (g : GameState) : (hitState g).gameRunning = g.gameRunning := rfl

lemma hitState_killsThisWave (g : GameState) :
    (hitState g).killsThisWave = g.killsThisWave := rfl

/-- The kill block changes only score, counters, particles and the wave
parameters; it preserves the bullet store, the hit and shot counters, the
lives and the lifecycle, and keeps the wave counter below the threshold. -/
lemma killReward_fields (env : Env) (e : Enemy) (g : GameState) (k : ℕ) :
    (killReward env e g k).st.shotsHit = g.shotsHit
    ∧ (killReward env e g k).st.shotsFired = g.shotsFired
    ∧ (killReward env e g k).st.bullets = g.bullets
    ∧ (killReward env e g k).st.lives = g.lives
    ∧ (killReward env e g k).st.gameRunning = g.gameRunning
    ∧ (killReward env e g k).st.killsThisWave ≤ max g.killsThisWave 7 := by
  unfold killReward boom waveAdvance KILLS_PER_WAVE
  dsimp only
  split
  · refine ⟨rfl, rfl, rfl, rfl, rfl, ?_⟩
    dsimp only
    omega
  · refine ⟨rfl, rfl, rfl, rfl, rfl, ?_⟩
    rename_i hlt
    dsimp only at hlt ⊢
    omega

/-- The bullet sweep of one enemy: every hit consumes exactly one
previously live bullet (the hit counter plus the live-bullet count of the
swept list is conserved), the list length is unchanged, and the state
fields other than shotsHit, particles, score and wave data pass through. -/
lemma bulletSweep_spec (env : Env) (e : Enemy) (g : GameState) (k : ℕ) :
    ∀ bs : List Bullet,
      (bulletSweep env e g k bs).st.shotsHit + liveBullets (bulletSweep env e g k bs).bullets
          = g.shotsHit + liveBullets bs
      ∧ (bulletSweep env e g k bs).bullets.length = bs.length
      ∧ (bulletSweep env e g k bs).st.bullets = g.bullets
      ∧ (bulletSweep env e g k bs).st.shotsFired = g.shotsFired
      ∧ (bulletSweep env e g k bs).st.lives = g.lives
      ∧ (bulletSweep env e g k bs).st.gameRunning = g.gameRunning
      ∧ (bulletSweep env e g k bs).st.killsThisWave ≤ max g.killsThisWave 7 := by
  intro bs
  induction bs with
  | nil =>
      refine ⟨rfl, rfl, rfl, rfl, rfl, rfl, ?_⟩
      simp [bulletSweep]
  | cons b rest ih =>
      rw [bulletSweep]
      obtain ⟨ih1, ih2, ih3, ih4, ih5, ih6, ih7⟩ := ih
      by_cases hbk : (bulletSweep env e g k rest).broke = true
      · rw [if_pos hbk]
        dsimp only
        refine ⟨?_, by simp [ih2], ih3, ih4, ih5, ih6, ih7⟩
        by_cases hd : b.dead = true
        · rw [liveBullets_cons_dead b _ hd, liveBullets_cons_dead b _ hd]
          exact ih1
        · have hd2 := (Bool.not_eq_true _ ▸ hd : b.dead = false)
          rw [liveBullets_cons_live b _ hd2, liveBullets_cons_live b _ hd2]
          omega
      · rw [if_neg hbk]
        by_cases hd : b.dead = true
        · rw [if_pos hd]
          dsimp only
          refine ⟨?_, by simp [ih2], ih3, ih4, ih5, ih6, ih7⟩
          rw [liveBullets_cons_dead b _ hd, liveBullets_cons_dead b _ hd]
          exact ih1
        · have hd2 := (Bool.not_eq_true _ ▸ hd : b.dead = false)
          rw [if_neg hd]
          by_cases hcol : collides b.rect (bulletSweep env e g k rest).enemy.rect = true
          · rw [if_pos hcol]
            dsimp only
            by_cases hkill : (damagedE (bulletSweep env e g k rest).enemy).health ≤ 0
            · rw [if_pos hkill]
              have hk := killReward_fields env (damagedE (bulletSweep env e g k rest).enemy)
                (hitState (bulletSweep env e g k rest).st) (bulletSweep env e g k rest).k
              obtain ⟨hk1, hk2, hk3, hk4, hk5, hk6⟩ := hk
              rw [hitState_shotsHit] at hk1
              rw [hitState_shotsFired] at hk2
              rw [hitState_bullets] at hk3
              rw [hitState_lives] at hk4
              rw [hitState_gameRunning] at hk5
              rw [hitState_killsThisWave] at hk6
              refine ⟨?_, by simp [ih2], by rw [hk3]; exact ih3,
                by rw [hk2]; exact ih4, by rw [hk4]; exact ih5,
                by rw [hk5]; exact ih6, le_trans hk6 (by omega)⟩
              rw [liveBullets_cons_dead _ _ rfl, liveBullets_cons_live b _ hd2, hk1]
              omega
            · rw [if_neg hkill]
              dsimp only
              refine ⟨?_, by simp [ih2],
                by rw [hitState_bullets]; exact ih3,
                by rw [hitState_shotsFired]; exact ih4,
                by rw [hitState_lives]; exact ih5,
                by rw [hitState_gameRunning]; exact ih6,
                by rw [hitState_killsThisWave]; omega⟩
              rw [liveBullets_cons_dead _ _ rfl, liveBullets_cons_live b _ hd2,
                hitState_shotsHit]
              omega
          · rw [if_neg hcol]
            dsimp only
            refine ⟨?_, by simp [ih2], ih3, ih4, ih5, ih6, ih7⟩
            rw [liveBullets_cons_live b _ hd2, liveBullets_cons_live b _ hd2]
            omega

lemma boom_st_shotsHit (x y : ℚ) (c : String) (env : Env) (g : GameState) (k : ℕ) :
    (boom x y c env g k).st.shotsHit = g.shotsHit := rfl

lemma boom_st_shotsFired (x y : ℚ) (c : String) (env : Env) (g : GameState) (k : ℕ) :
    (boom x y c env g k).st.shotsFired = g.shotsFired := rfl

lemma boom_st_bullets (x y : ℚ) (c : String) (env : Env) (g : GameState) (k : ℕ) :
    (boom x y c env g k).st.bullets = g.bullets := rfl

lemma boom_st_lives (x y : ℚ) (c : String) (env : Env) (g : GameState) (k : ℕ) :
    (boom x y c env g k).st.lives = g.lives := rfl

lemma boom_st_gameRunning (x y : ℚ) (c : String) (env : Env) (g : GameState) (k : ℕ) :
    (boom x y c env g k).st.gameRunning = g.gameRunning := rfl

lemma boom_st_killsThisWave (x y : ℚ) (c : String) (env : Env) (g : GameState) (k : ℕ) :
    (boom x y c env g k).st.killsThisWave = g.killsThisWave := rfl

lemma addScore_shotsHit (n : ℤ) (g : GameState) : (addScore n g).shotsHit = g.shotsHit := rfl

lemma addScore_shotsFired (n : ℤ) (g : GameState) :
    (addScore n g).shotsFired = g.shotsFired := rfl

lemma addScore_bullets (n : ℤ) (g : GameState) : (addScore n g).bullets = g.bullets := rfl

lemma addScore_lives (n : ℤ) (g : GameState) : (addScore n g).lives = g.lives := rfl

lemma addScore_gameRunning (n : ℤ) (g : GameState) :
    (addScore n g).gameRunning = g.gameRunning := rfl

lemma addScore_killsThisWave (n : ℤ) (g : GameState) :
    (addScore n g).killsThisWave = g.killsThisWave := rfl

lemma setBullets_bullets (bs : List Bullet) (g : GameState) :
    (setBullets bs g).bullets = bs := rfl

lemma setBullets_shotsHit (bs : List Bullet) (g : GameState) :
    (setBullets bs g).shotsHit = g.shotsHit := rfl

lemma setBullets_shotsFired (bs : List Bullet) (g : GameState) :
    (setBullets bs g).shotsFired = g.shotsFired := rfl

lemma setBullets_lives (bs : List Bullet) (g : GameState) :
    (setBullets bs g).lives = g.lives := rfl

lemma setBullets_gameRunning (bs : List Bullet) (g : GameState) :
    (setBullets bs g).gameRunning = g.gameRunning := rfl

lemma setBullets_killsThisWave (bs : List Bullet) (g : GameState) :
    (setBullets bs g).killsThisWave = g.killsThisWave := rfl

lemma loseLife_lives (g : GameState) : (loseLife g).lives = g.lives - 1 := rfl

lemma loseLife_shotsHit (g : GameState) : (loseLife g).shotsHit = g.shotsHit := rfl

lemma loseLife_shotsFired (g : GameState) : (loseLife g).shotsFired = g.shotsFired := rfl

lemma loseLife_bullets (g : GameState) : (loseLife g).bullets = g.bullets := rfl

lemma loseLife_gameRunning (g : GameState) : (loseLife g).gameRunning = g.gameRunning := rfl

lemma loseLife_killsThisWave (g : GameState) :
    (loseLife g).killsThisWave = g.killsThisWave := rfl

lemma endGame_gameRunning (t : ℤ) (g : GameState) : (endGame t g).gameRunning = false := rfl

lemma endGame_lives (t : ℤ) (g : GameState) : (endGame t g).lives = g.lives := rfl

lemma endGame_shotsHit (t : ℤ) (g : GameState) : (endGame t g).shotsHit = g.shotsHit := rfl

lemma endGame_shotsFired (t : ℤ) (g : GameState) :
    (endGame t g).shotsFired = g.shotsFired := rfl

lemma endGame_bullets (t : ℤ) (g : GameState) : (endGame t g).bullets = g.bullets := rfl

lemma endGame_killsThisWave (t : ℤ) (g : GameState) :
    (endGame t g).killsThisWave = g.killsThisWave := rfl

/-- The meteor bullet loop satisfies the same conservation as the enemy
bullet loop: hits and consumed live bullets balance, the list length and
the untouched session fields pass through. -/
lemma meteorBulletSweep_spec (env : Env) (m : Meteor) (g : GameState) (k : ℕ) :
    ∀ bs : List Bullet,
      (meteorBulletSweep env m g k bs).st.shotsHit
            + liveBullets (meteorBulletSweep env m g k bs).bullets
          = g.shotsHit + liveBullets bs
      ∧ (meteorBulletSweep env m g k bs).bullets.length = bs.length
      ∧ (meteorBulletSweep env m g k bs).st.bullets = g.bullets
      ∧ (meteorBulletSweep env m g k bs).st.shotsFired = g.shotsFired
      ∧ (meteorBulletSweep env m g k bs).st.lives = g.lives
      ∧ (meteorBulletSweep env m g k bs).st.gameRunning = g.gameRunning
      ∧ (meteorBulletSweep env m g k bs).st.killsThisWave = g.killsThisWave := by
  intro bs
  induction bs with
  | nil => exact ⟨rfl, rfl, rfl, rfl, rfl, rfl, rfl⟩
  | cons b rest ih =>
      rw [meteorBulletSweep]
      obtain ⟨ih1, ih2, ih3, ih4, ih5, ih6, ih7⟩ := ih
      by_cases hbk : (meteorBulletSweep env m g k rest).broke = true
      · rw [if_pos hbk]
        dsimp only
        refine ⟨?_, by simp [ih2], ih3, ih4, ih5, ih6, ih7⟩
        by_cases hd : b.dead = true
        · rw [liveBullets_cons_dead b _ hd, liveBullets_cons_dead b _ hd]
          exact ih1
        · have hd2 := (Bool.not_eq_true _ ▸ hd : b.dead = false)
          rw [liveBullets_cons_live b _ hd2, liveBullets_cons_live b _ hd2]
          omega
      · rw [if_neg hbk]
        by_cases hd : b.dead = true
        · rw [if_pos hd]
          dsimp only
          refine ⟨?_, by simp [ih2], ih3, ih4, ih5, ih6, ih7⟩
          rw [liveBullets_cons_dead b _ hd, liveBullets_cons_dead b _ hd]
          exact ih1
        · have hd2 := (Bool.not_eq_true _ ▸ hd : b.dead = false)
          rw [if_neg hd]
          by_cases hcol : collides b.rect (meteorBulletSweep env m g k rest).meteor.rect = true
          · rw [if_pos hcol]
            dsimp only
            by_cases hkill : (damagedM (meteorBulletSweep env m g k rest).meteor).health ≤ 0
            · rw [if_pos hkill]
              dsimp only
              refine ⟨?_, by simp [ih2],
                by rw [addScore_bullets, boom_st_bullets, hitState_bullets]; exact ih3,
                by rw [addScore_shotsFired, boom_st_shotsFired, hitState_shotsFired]; exact ih4,
                by rw [addScore_lives, boom_st_lives, hitState_lives]; exact ih5,
                by rw [addScore_gameRunning, boom_st_gameRunning, hitState_gameRunning]; exact ih6,
                by rw [addScore_killsThisWave, boom_st_killsThisWave, hitState_killsThisWave]; exact ih7⟩
              rw [liveBullets_cons_dead _ _ rfl, liveBullets_cons_live b _ hd2,
                addScore_shotsHit, boom_st_shotsHit, hitState_shotsHit]
              omega
            · rw [if_neg hkill]
              dsimp only
              refine ⟨?_, by simp [ih2],
                by rw [hitState_bullets]; exact ih3,
                by rw [hitState_shotsFired]; exact ih4,
                by rw [hitState_lives]; exact ih5,
                by rw [hitState_gameRunning]; exact ih6,
                by rw [hitState_killsThisWave]; exact ih7⟩
              rw [liveBullets_cons_dead _ _ rfl, liveBullets_cons_live b _ hd2,
                hitState_shotsHit]
              omega
          · rw [if_neg hcol]
            dsimp only
            refine ⟨?_, by simp [ih2], ih3, ih4, ih5, ih6, ih7⟩
            rw [liveBullets_cons_live b _ hd2, liveBullets_cons_live b _ hd2]
            omega

lemma setEnemies_bullets (es : List Enemy) (g : GameState) :
    (setEnemies es g).bullets = g.bullets := rfl

lemma setEnemies_shotsHit (es : List Enemy) (g : GameState) :
    (setEnemies es g).shotsHit = g.shotsHit := rfl

lemma setEnemies_shotsFired (es : List Enemy) (g : GameState) :
    (setEnemies es g).shotsFired = g.shotsFired := rfl

lemma setEnemies_lives (es : List Enemy) (g : GameState) :
    (setEnemies es g).lives = g.lives := rfl

lemma setEnemies_gameRunning (es : List Enemy) (g : GameState) :
    (setEnemies es g).gameRunning = g.gameRunning := rfl

lemma setEnemies_killsThisWave (es : List Enemy) (g : GameState) :
    (setEnemies es g).killsThisWave = g.killsThisWave := rfl

lemma setMeteors_bullets (ms : List Meteor) (g : GameState) :
    (setMeteors ms g).bullets = g.bullets := rfl

lemma setMeteors_shotsHit (ms : List Meteor) (g : GameState) :
    (setMeteors ms g).shotsHit = g.shotsHit := rfl

lemma setMeteors_shotsFired (ms : List Meteor) (g : GameState) :
    (setMeteors ms g).shotsFired = g.shotsFired := rfl

lemma setMeteors_lives (ms : List Meteor) (g : GameState) :
    (setMeteors ms g).lives = g.lives := rfl

lemma setMeteors_gameRunning (ms : List Meteor) (g : GameState) :
    (setMeteors ms g).gameRunning = g.gameRunning := rfl

lemma setMeteors_killsThisWave (ms : List Meteor) (g : GameState) :
    (setMeteors ms g).killsThisWave = g.killsThisWave := rfl

lemma spawnMeteor_st_bullets (env : Env) (g : GameState) (k : ℕ) :
    (spawnMeteor env g k).st.bullets = g.bullets := rfl

lemma spawnMeteor_st_shotsHit (env : Env) (g : GameState) (k : ℕ) :
    (spawnMeteor env g k).st.shotsHit = g.shotsHit := rfl

lemma spawnMeteor_st_shotsFired (env : Env) (g : GameState) (k : ℕ) :
    (spawnMeteor env g k).st.shotsFired = g.shotsFired := rfl

lemma spawnMeteor_st_lives (env : Env) (g : GameState) (k : ℕ) :
    (spawnMeteor env g k).st.lives = g.lives := rfl

lemma spawnMeteor_st_gameRunning (env : Env) (g : GameState) (k : ℕ) :
    (spawnMeteor env g k).st.gameRunning = g.gameRunning := rfl

lemma spawnMeteor_st_killsThisWave (env : Env) (g : GameState) (k : ℕ) :
    (spawnMeteor env g k).st.killsThisWave = g.killsThisWave := rfl

lemma endShower_bullets (g : GameState) : (endShower g).bullets = g.bullets := rfl

lemma endShower_shotsHit (g : GameState) : (endShower g).shotsHit = g.shotsHit := rfl

lemma endShower_shotsFired (g : GameState) : (endShower g).shotsFired = g.shotsFired := rfl

lemma endShower_lives (g : GameState) : (endShower g).lives = g.lives := rfl

lemma endShower_gameRunning (g : GameState) : (endShower g).gameRunning = g.gameRunning := rfl

lemma endShower_killsThisWave (g : GameState) :
    (endShower g).killsThisWave = g.killsThisWave := rfl

/-- One enemy iteration: conservation of hits against consumed bullets,
preservation of the untouched counters, and the lifecycle direction (the
loop can only stop the game, never restart it; a collision that exhausts
the lives ends the game at once). -/
lemma stepEnemy_spec (env : Env) (e0 : Enemy) (g : GameState) (k : ℕ) :
    (stepEnemy env e0 g k).st.shotsHit + liveBullets (stepEnemy env e0 g k).st.bullets
        = g.shotsHit + liveBullets g.bullets
    ∧ (stepEnemy env e0 g k).st.bullets.length = g.bullets.length
    ∧ (stepEnemy env e0 g k).st.shotsFired = g.shotsFired
    ∧ (stepEnemy env e0 g k).st.killsThisWave ≤ max g.killsThisWave 7
    ∧ ((stepEnemy env e0 g k).st.gameRunning = true → g.gameRunning = true)
    ∧ (LivesGuard g → LivesGuard (stepEnemy env e0 g k).st) := by
  obtain ⟨h1, h2, h3, h4, h5, h6, h7⟩ :=
    bulletSweep_spec env { e0 with y := e0.y + e0.speed } g k g.bullets
  unfold stepEnemy
  dsimp only
  split
  · split
    · -- collision and the last life: endGame fires
      refine ⟨?_, ?_, ?_, ?_, ?_, ?_⟩
      · rw [endGame_shotsHit, loseLife_shotsHit, boom_st_shotsHit, setBullets_shotsHit,
          endGame_bullets, loseLife_bullets, boom_st_bullets, setBullets_bullets]
        exact h1
      · rw [endGame_bullets, loseLife_bullets, boom_st_bullets, setBullets_bullets]
        exact h2
      · rw [endGame_shotsFired, loseLife_shotsFired, boom_st_shotsFired,
          setBullets_shotsFired]
        exact h4
      · rw [endGame_killsThisWave, loseLife_killsThisWave, boom_st_killsThisWave,
          setBullets_killsThisWave]
        exact h7
      · rw [endGame_gameRunning]
        intro hfalse
        exact absurd hfalse Bool.false_ne_true
      · intro _ _
        exact endGame_gameRunning _ _
    · -- collision survived
      rename_i hlv
      refine ⟨?_, ?_, ?_, ?_, ?_, ?_⟩
      · rw [loseLife_shotsHit, boom_st_shotsHit, setBullets_shotsHit,
          loseLife_bullets, boom_st_bullets, setBullets_bullets]
        exact h1
      · rw [loseLife_bullets, boom_st_bullets, setBullets_bullets]
        exact h2
      · rw [loseLife_shotsFired, boom_st_shotsFired, setBullets_shotsFired]
        exact h4
      · rw [loseLife_killsThisWave, boom_st_killsThisWave, setBullets_killsThisWave]
        exact h7
      · rw [loseLife_gameRunning, boom_st_gameRunning, setBullets_gameRunning, h6]
        exact id
      · intro _ hl
        exact absurd hl hlv
  · -- no player collision
    refine ⟨?_, ?_, ?_, ?_, ?_, ?_⟩
    · rw [setBullets_shotsHit, setBullets_bullets]
      exact h1
    · rw [setBullets_bullets]
      exact h2
    · rw [setBullets_shotsFired]
      exact h4
    · rw [setBullets_killsThisWave]
      exact h7
    · rw [setBullets_gameRunning, h6]
      exact id
    · intro hg hl
      rw [setBullets_lives, h5] at hl
      rw [setBullets_gameRunning, h6]
      exact hg hl

/-- The enemy loop preserves the invariants enemy by enemy. -/
lemma enemyPhase_spec (env : Env) :
    ∀ (es : List Enemy) (g : GameState) (k : ℕ),
      (enemyPhase env es g k).st.shotsHit + liveBullets (enemyPhase env es g k).st.bullets
          = g.shotsHit + liveBullets g.bullets
      ∧ (enemyPhase env es g k).st.bullets.length = g.bullets.length
      ∧ (enemyPhase env es g k).st.shotsFired = g.shotsFired
      ∧ (enemyPhase env es g k).st.killsThisWave ≤ max g.killsThisWave 7
      ∧ ((enemyPhase env es g k).st.gameRunning = true → g.gameRunning = true)
      ∧ (LivesGuard g → LivesGuard (enemyPhase env es g k).st) := by
  intro es
  induction es with
  | nil =>
      intro g k
      exact ⟨rfl, rfl, rfl, le_max_left _ _, id, id⟩
  | cons e rest ih =>
      intro g k
      rw [enemyPhase]
      dsimp only
      obtain ⟨s1, s2, s3, s4, s5, s6⟩ := stepEnemy_spec env e g k
      obtain ⟨p1, p2, p3, p4, p5, p6⟩ :=
        ih (stepEnemy env e g k).st (stepEnemy env e g k).k
      exact ⟨by omega, p2.trans s2, p3.trans s3, by omega,
        fun h => s5 (p5 h), fun h => p6 (s6 h)⟩

/-- One meteor iteration: same conservation and lifecycle facts; the
meteor loop never touches the wave counter. -/
lemma stepMeteor_spec (env : Env) (m0 : Meteor) (g : GameState) (k : ℕ) :
    (stepMeteor env m0 g k).st.shotsHit + liveBullets (stepMeteor env m0 g k).st.bullets
        = g.shotsHit + liveBullets g.bullets
    ∧ (stepMeteor env m0 g k).st.bullets.length = g.bullets.length
    ∧ (stepMeteor env m0 g k).st.shotsFired = g.shotsFired
    ∧ (stepMeteor env m0 g k).st.killsThisWave = g.killsThisWave
    ∧ ((stepMeteor env m0 g k).st.gameRunning = true → g.gameRunning = true)
    ∧ (LivesGuard g → LivesGuard (stepMeteor env m0 g k).st) := by
  obtain ⟨h1, h2, h3, h4, h5, h6, h7⟩ :=
    meteorBulletSweep_spec env { m0 with y := m0.y + m0.speed } g k g.bullets
  unfold stepMeteor
  dsimp only
  split
  · -- meteor-player collision
    dsimp only
    split
    case isTrue =>
      split
      case isTrue =>
        dsimp only
        refine ⟨?_, ?_, ?_, ?_, ?_, ?_⟩
        · rw [endGame_shotsHit, loseLife_shotsHit, boom_st_shotsHit, setBullets_shotsHit,
            endGame_bullets, loseLife_bullets, boom_st_bullets, setBullets_bullets]
          exact h1
        · rw [endGame_bullets, loseLife_bullets, boom_st_bullets, setBullets_bullets]
          exact h2
        · rw [endGame_shotsFired, loseLife_shotsFired, boom_st_shotsFired,
            setBullets_shotsFired]
          exact h4
        · rw [endGame_killsThisWave, loseLife_killsThisWave, boom_st_killsThisWave,
            setBullets_killsThisWave]
          exact h7
        · rw [endGame_gameRunning]
          intro hfalse
          exact absurd hfalse Bool.false_ne_true
        · intro _ _
          exact endGame_gameRunning _ _
      case isFalse hlv =>
        dsimp only
        refine ⟨?_, ?_, ?_, ?_, ?_, ?_⟩
        · rw [loseLife_shotsHit, boom_st_shotsHit, setBullets_shotsHit,
            loseLife_bullets, boom_st_bullets, setBullets_bullets]
          exact h1
        · rw [loseLife_bullets, boom_st_bullets, setBullets_bullets]
          exact h2
        · rw [loseLife_shotsFired, boom_st_shotsFired, setBullets_shotsFired]
          exact h4
        · rw [loseLife_killsThisWave, boom_st_killsThisWave, setBullets_killsThisWave]
          exact h7
        · rw [loseLife_gameRunning, boom_st_gameRunning, setBullets_gameRunning, h6]
          exact id
        · intro _ hl
          exact absurd hl hlv
    case isFalse =>
      split
      case isTrue =>
        dsimp only
        refine ⟨?_, ?_, ?_, ?_, ?_, ?_⟩
        · rw [endGame_shotsHit, loseLife_shotsHit, boom_st_shotsHit, setBullets_shotsHit,
            endGame_bullets, loseLife_bullets, boom_st_bullets, setBullets_bullets]
          exact h1
        · rw [endGame_bullets, loseLife_bullets, boom_st_bullets, setBullets_bullets]
          exact h2
        · rw [endGame_shotsFired, loseLife_shotsFired, boom_st_shotsFired,
            setBullets_shotsFired]
          exact h4
        · rw [endGame_killsThisWave, loseLife_killsThisWave, boom_st_killsThisWave,
            setBullets_killsThisWave]
          exact h7
        · rw [endGame_gameRunning]
          intro hfalse
          exact absurd hfalse Bool.false_ne_true
        · intro _ _
          exact endGame_gameRunning _ _
      case isFalse hlv =>
        dsimp only
        refine ⟨?_, ?_, ?_, ?_, ?_, ?_⟩
        · rw [loseLife_shotsHit, boom_st_shotsHit, setBullets_shotsHit,
            loseLife_bullets, boom_st_bullets, setBullets_bullets]
          exact h1
        · rw [loseLife_bullets, boom_st_bullets, setBullets_bullets]
          exact h2
        · rw [loseLife_shotsFired, boom_st_shotsFired, setBullets_shotsFired]
          exact h4
        · rw [loseLife_killsThisWave, boom_st_killsThisWave, setBullets_killsThisWave]
          exact h7
        · rw [loseLife_gameRunning, boom_st_gameRunning, setBullets_gameRunning, h6]
          exact id
        · intro _ hl
          exact absurd hl hlv
  · -- no player collision
    dsimp only
    split
    case isTrue =>
      dsimp only
      refine ⟨?_, ?_, ?_, ?_, ?_, ?_⟩
      · rw [setBullets_shotsHit, setBullets_bullets]
        exact h1
      · rw [setBullets_bullets]
        exact h2
      · rw [setBullets_shotsFired]
        exact h4
      · rw [setBullets_killsThisWave]
        exact h7
      · rw [setBullets_gameRunning, h6]
        exact id
      · intro hg hl
        rw [setBullets_lives, h5] at hl
        rw [setBullets_gameRunning, h6]
        exact hg hl
    case isFalse =>
      dsimp only
      refine ⟨?_, ?_, ?_, ?_, ?_, ?_⟩
      · rw [setBullets_shotsHit, setBullets_bullets]
        exact h1
      · rw [setBullets_bullets]
        exact h2
      · rw [setBullets_shotsFired]
        exact h4
      · rw [setBullets_killsThisWave]
        exact h7
      · rw [setBullets_gameRunning, h6]
        exact id
      · intro hg hl
        rw [setBullets_lives, h5] at hl
        rw [setBullets_gameRunning, h6]
        exact hg hl

/-- The meteor loop preserves the invariants meteor by meteor. -/
lemma meteorPhase_spec (env : Env) :
    ∀ (ms : List Meteor) (g : GameState) (k : ℕ),
      (meteorPhase env ms g k).st.shotsHit + liveBullets (meteorPhase env ms g k).st.bullets
          = g.shotsHit + liveBullets g.bullets
      ∧ (meteorPhase env ms g k).st.bullets.length = g.bullets.length
      ∧ (meteorPhase env ms g k).st.shotsFired = g.shotsFired
      ∧ (meteorPhase env ms g k).st.killsThisWave = g.killsThisWave
      ∧ ((meteorPhase env ms g k).st.gameRunning = true → g.gameRunning = true)
      ∧ (LivesGuard g → LivesGuard (meteorPhase env ms g k).st) := by
  intro ms
  induction ms with
  | nil =>
      intro g k
      exact ⟨rfl, rfl, rfl, rfl, id, id⟩
  | cons m rest ih =>
      intro g k
      rw [meteorPhase]
      dsimp only
      obtain ⟨p1, p2, p3, p4, p5, p6⟩ := ih g k
      obtain ⟨s1, s2, s3, s4, s5, s6⟩ :=
        stepMeteor_spec env m (meteorPhase env rest g k).st (meteorPhase env rest g k).k
      exact ⟨by omega, s2.trans p2, s3.trans p3, s4.trans p4,
        fun h => p5 (s5 h), fun h => s6 (p6 h)⟩

/-- updateMeteors() preserves the invariants: the spawn and shower
bookkeeping leave the bullet accounting alone, and the meteor loop
conserves it. -/
lemma updateMeteors_spec (env : Env) (g : GameState) (k : ℕ) :
    (updateMeteors env g k).st.shotsHit + liveBullets (updateMeteors env g k).st.bullets
        = g.shotsHit + liveBullets g.bullets
    ∧ (updateMeteors env g k).st.shotsFired = g.shotsFired
    ∧ (updateMeteors env g k).st.killsThisWave = g.killsThisWave
    ∧ ((updateMeteors env g k).st.gameRunning = true → g.gameRunning = true)
    ∧ (LivesGuard g → LivesGuard (updateMeteors env g k).st) := by
  unfold updateMeteors
  split
  · exact ⟨rfl, rfl, rfl, id, id⟩
  · dsimp only
    split <;> split
    · obtain ⟨p1, p2, p3, p4, p5, p6⟩ := meteorPhase_spec env
        (endShower (spawnMeteor env g k).st).meteors
        (endShower (spawnMeteor env g k).st) (spawnMeteor env g k).k
      refine ⟨?_, ?_, ?_, ?_, ?_⟩
      · rw [setMeteors_shotsHit, setMeteors_bullets]
        rw [endShower_shotsHit, endShower_bullets, spawnMeteor_st_shotsHit,
          spawnMeteor_st_bullets] at p1
        exact p1
      · rw [setMeteors_shotsFired, p3, endShower_shotsFired, spawnMeteor_st_shotsFired]
      · rw [setMeteors_killsThisWave, p4, endShower_killsThisWave,
          spawnMeteor_st_killsThisWave]
      · intro h
        rw [setMeteors_gameRunning] at h
        have := p5 h
        rw [endShower_gameRunning, spawnMeteor_st_gameRunning] at this
        exact this
      · intro hg
        intro hl
        rw [setMeteors_lives] at hl
        rw [setMeteors_gameRunning]
        refine p6 ?_ hl
        intro hl2
        rw [endShower_lives, spawnMeteor_st_lives] at hl2
        rw [endShower_gameRunning, spawnMeteor_st_gameRunning]
        exact hg hl2
    · obtain ⟨p1, p2, p3, p4, p5, p6⟩ := meteorPhase_spec env
        (spawnMeteor env g k).st.meteors
        (spawnMeteor env g k).st (spawnMeteor env g k).k
      refine ⟨?_, ?_, ?_, ?_, ?_⟩
      · rw [setMeteors_shotsHit, setMeteors_bullets]
        rw [spawnMeteor_st_shotsHit, spawnMeteor_st_bullets] at p1
        exact p1
      · rw [setMeteors_shotsFired, p3, spawnMeteor_st_shotsFired]
      · rw [setMeteors_killsThisWave, p4, spawnMeteor_st_killsThisWave]
      · intro h
        rw [setMeteors_gameRunning] at h
        have := p5 h
        rw [spawnMeteor_st_gameRunning] at this
        exact this
      · intro hg hl
        rw [setMeteors_lives] at hl
        rw [setMeteors_gameRunning]
        refine p6 ?_ hl
        intro hl2
        rw [spawnMeteor_st_lives] at hl2
        rw [spawnMeteor_st_gameRunning]
        exact hg hl2
    · obtain ⟨p1, p2, p3, p4, p5, p6⟩ := meteorPhase_spec env
        (endShower g).meteors (endShower g) k
      refine ⟨?_, ?_, ?_, ?_, ?_⟩
      · rw [setMeteors_shotsHit, setMeteors_bullets]
        rw [endShower_shotsHit, endShower_bullets] at p1
        exact p1
      · rw [setMeteors_shotsFired, p3, endShower_shotsFired]
      · rw [setMeteors_killsThisWave, p4, endShower_killsThisWave]
      · intro h
        rw [setMeteors_gameRunning] at h
        have := p5 h
        rw [endShower_gameRunning] at this
        exact this
      · intro hg hl
        rw [setMeteors_lives] at hl
        rw [setMeteors_gameRunning]
        refine p6 ?_ hl
        intro hl2
        rw [endShower_lives] at hl2
        rw [endShower_gameRunning]
        exact hg hl2
    · obtain ⟨p1, p2, p3, p4, p5, p6⟩ := meteorPhase_spec env g.meteors g k
      refine ⟨?_, ?_, ?_, ?_, ?_⟩
      · rw [setMeteors_shotsHit, setMeteors_bullets]
        exact p1
      · rw [setMeteors_shotsFired, p3]
      · rw [setMeteors_killsThisWave, p4]
      · intro h
        rw [setMeteors_gameRunning] at h
        exact p5 h
      · intro hg hl
        rw [setMeteors_lives] at hl
        rw [setMeteors_gameRunning]
        exact p6 hg hl

/-- shoot() preserves the bullet accounting (a created bullet is counted
in shotsFired) and does not touch the wave counter or lifecycle. -/
lemma shoot_invs (t : ℤ) (g : GameState) :
    (InvShots g → InvShots (shoot t g))
    ∧ (shoot t g).killsThisWave = g.killsThisWave
    ∧ (shoot t g).lives = g.lives
    ∧ (shoot t g).gameRunning = g.gameRunning := by
  unfold shoot
  split
  · exact ⟨fun h => h, rfl, rfl, rfl⟩
  · split
    · exact ⟨fun h => h, rfl, rfl, rfl⟩
    · refine ⟨?_, rfl, rfl, rfl⟩
      intro hI
      unfold InvShots at hI ⊢
      dsimp only
      rw [liveBullets_append]
      have hone :
          liveBullets
            [({ x := g.player.x + 24, y := g.player.y, w := 8, h := 16, speed := 14 } :
              Bullet)] = 1 := rfl
      omega

lemma tickStart_invs (env : Env) (g : GameState) :
    (InvShots g → InvShots (tickStart env g))
    ∧ (tickStart env g).killsThisWave = g.killsThisWave
    ∧ (tickStart env g).lives = g.lives
    ∧ (tickStart env g).gameRunning = g.gameRunning :=
  ⟨fun h => h, rfl, rfl, rfl⟩

lemma inputPhase_invs (env : Env) (g : GameState) :
    (InvShots g → InvShots (inputPhase env g))
    ∧ (inputPhase env g).killsThisWave = g.killsThisWave
    ∧ (inputPhase env g).lives = g.lives
    ∧ (inputPhase env g).gameRunning = g.gameRunning := by
  unfold inputPhase
  dsimp only
  split <;> split <;> split <;>
    first
      | exact ⟨fun h => h, rfl, rfl, rfl⟩
      | exact ⟨fun h => (shoot_invs env.now _).1 h, (shoot_invs env.now _).2.1,
          (shoot_invs env.now _).2.2.1, (shoot_invs env.now _).2.2.2⟩

lemma bulletMovePhase_invs (g : GameState) :
    (InvShots g → InvShots (bulletMovePhase g))
    ∧ (bulletMovePhase g).killsThisWave = g.killsThisWave
    ∧ (bulletMovePhase g).lives = g.lives
    ∧ (bulletMovePhase g).gameRunning = g.gameRunning := by
  refine ⟨?_, rfl, rfl, rfl⟩
  intro h
  unfold InvShots at h ⊢
  unfold bulletMovePhase
  dsimp only
  have h1 := liveBullets_filter_le (fun b => decide (-20 < b.y)) (g.bullets.map moveBullet)
  have h2 := liveBullets_map_move g.bullets
  omega

lemma spawnPhase_invs (env : Env) (g : GameState) :
    (InvShots g → InvShots (spawnPhase env g).st)
    ∧ (spawnPhase env g).st.killsThisWave = g.killsThisWave
    ∧ (spawnPhase env g).st.lives = g.lives
    ∧ (spawnPhase env g).st.gameRunning = g.gameRunning := by
  unfold spawnPhase
  split <;> exact ⟨fun h => h, rfl, rfl, rfl⟩

lemma collisionPhase_invs (env : Env) (r : GK) :
    (InvShots r.st → InvShots (collisionPhase env r).st)
    ∧ (InvWave r.st → InvWave (collisionPhase env r).st)
    ∧ ((collisionPhase env r).st.gameRunning = true → r.st.gameRunning = true)
    ∧ (LivesGuard r.st → LivesGuard (collisionPhase env r).st) := by
  unfold collisionPhase
  dsimp only
  obtain ⟨p1, p2, p3, p4, p5, p6⟩ := enemyPhase_spec env r.st.enemies r.st r.k
  refine ⟨?_, ?_, ?_, ?_⟩
  · intro h
    unfold InvShots at h ⊢
    rw [setEnemies_shotsHit, setEnemies_bullets, setEnemies_shotsFired]
    omega
  · intro h
    unfold InvWave KILLS_PER_WAVE at h ⊢
    rw [setEnemies_killsThisWave]
    omega
  · intro h
    rw [setEnemies_gameRunning] at h
    exact p5 h
  · intro h hl
    rw [setEnemies_lives] at hl
    rw [setEnemies_gameRunning]
    exact p6 h hl

lemma compactBullets_invs (g : GameState) :
    (InvShots g → InvShots (compactBullets g))
    ∧ (compactBullets g).killsThisWave = g.killsThisWave
    ∧ (compactBullets g).lives = g.lives
    ∧ (compactBullets g).gameRunning = g.gameRunning := by
  refine ⟨?_, rfl, rfl, rfl⟩
  intro h
  unfold InvShots at h ⊢
  unfold compactBullets
  dsimp only
  rw [liveBullets_compact]
  exact h

lemma compactEnemies_invs (g : GameState) :
    (InvShots g → InvShots (compactEnemies g))
    ∧ (compactEnemies g).killsThisWave = g.killsThisWave
    ∧ (compactEnemies g).lives = g.lives
    ∧ (compactEnemies g).gameRunning = g.gameRunning :=
  ⟨fun h => h, rfl, rfl, rfl⟩

lemma particlePhase_invs (g : GameState) :
    (InvShots g → InvShots (particlePhase g))
    ∧ (particlePhase g).killsThisWave = g.killsThisWave
    ∧ (particlePhase g).lives = g.lives
    ∧ (particlePhase g).gameRunning = g.gameRunning :=
  ⟨fun h => h, rfl, rfl, rfl⟩

lemma meteorCheck_invs (env : Env) (g : GameState) (k : ℕ) :
    (InvShots g → InvShots (meteorCheck env g k).st)
    ∧ (meteorCheck env g k).st.killsThisWave = g.killsThisWave
    ∧ (meteorCheck env g k).st.lives = g.lives
    ∧ (meteorCheck env g k).st.gameRunning = g.gameRunning := by
  unfold meteorCheck
  split
  · split
    · split <;> exact ⟨fun h => h, rfl, rfl, rfl⟩
    · exact ⟨fun h => h, rfl, rfl, rfl⟩
  · exact ⟨fun h => h, rfl, rfl, rfl⟩

/-- The simulation step preserves the bullet accounting and the wave
invariant, and a step that exhausts the lives leaves the Running state. -/
lemma update_invs (env : Env) (g : GameState) :
    (InvShots g → InvShots (update env g))
    ∧ (InvWave g → InvWave (update env g))
    ∧ (0 < g.lives → LivesGuard (update env g)) := by
  unfold update
  split
  · refine ⟨id, id, ?_⟩
    intro hpos hle
    exact absurd hle (by omega)
  · dsimp only
    obtain ⟨t1, t2, t3, t4⟩ := tickStart_invs env g
    obtain ⟨i1, i2, i3, i4⟩ := inputPhase_invs env (tickStart env g)
    obtain ⟨b1, b2, b3, b4⟩ := bulletMovePhase_invs (inputPhase env (tickStart env g))
    obtain ⟨s1, s2, s3, s4⟩ :=
      spawnPhase_invs env (bulletMovePhase (inputPhase env (tickStart env g)))
    obtain ⟨c1, c2, c3, c4⟩ :=
      collisionPhase_invs env (spawnPhase env (bulletMovePhase (inputPhase env (tickStart env g))))
    obtain ⟨cb1, cb2, cb3, cb4⟩ :=
      compactBullets_invs
        (collisionPhase env (spawnPhase env (bulletMovePhase (inputPhase env (tickStart env g))))).st
    obtain ⟨ce1, ce2, ce3, ce4⟩ :=
      compactEnemies_invs
        (compactBullets
          (collisionPhase env (spawnPhase env (bulletMovePhase (inputPhase env (tickStart env g))))).st)
    obtain ⟨pp1, pp2, pp3, pp4⟩ :=
      particlePhase_invs
        (compactEnemies (compactBullets
          (collisionPhase env (spawnPhase env (bulletMovePhase (inputPhase env (tickStart env g))))).st))
    obtain ⟨mc1, mc2, mc3, mc4⟩ :=
      meteorCheck_invs env
        (particlePhase (compactEnemies (compactBullets
          (collisionPhase env (spawnPhase env (bulletMovePhase (inputPhase env (tickStart env g))))).st)))
        (collisionPhase env (spawnPhase env (bulletMovePhase (inputPhase env (tickStart env g))))).k
    obtain ⟨um1, um2, um3, um4, um5⟩ :=
      updateMeteors_spec env
        (meteorCheck env
          (particlePhase (compactEnemies (compactBullets
            (collisionPhase env (spawnPhase env (bulletMovePhase (inputPhase env (tickStart env g))))).st)))
          (collisionPhase env (spawnPhase env (bulletMovePhase (inputPhase env (tickStart env g))))).k).st
        (meteorCheck env
          (particlePhase (compactEnemies (compactBullets
            (collisionPhase env (spawnPhase env (bulletMovePhase (inputPhase env (tickStart env g))))).st)))
          (collisionPhase env (spawnPhase env (bulletMovePhase (inputPhase env (tickStart env g))))).k).k
    refine ⟨?_, ?_, ?_⟩
    · intro hI
      have h10 := mc1 (pp1 (ce1 (cb1 (c1 (s1 (b1 (i1 (t1 hI))))))))
      unfold InvShots at h10 ⊢
      omega
    · intro hW
      have hc := c2 ?hw2
      case hw2 =>
        unfold InvWave at hW ⊢
        rw [s2, b2, i2, t2]
        exact hW
      unfold InvWave KILLS_PER_WAVE at hc ⊢
      rw [um3, mc2, pp2, ce2, cb2]
      omega
    · intro hpos
      have hc : LivesGuard
          (collisionPhase env (spawnPhase env (bulletMovePhase (inputPhase env (tickStart env g))))).st := by
        refine c4 ?_
        intro hl
        rw [s3, b3, i3, t3] at hl
        exact absurd hl (by omega)
      have hg10 : LivesGuard
          (meteorCheck env
            (particlePhase (compactEnemies (compactBullets
              (collisionPhase env (spawnPhase env (bulletMovePhase (inputPhase env (tickStart env g))))).st)))
            (collisionPhase env (spawnPhase env (bulletMovePhase (inputPhase env (tickStart env g))))).k).st := by
        intro hl
        rw [mc3, pp3, ce3, cb3] at hl
        rw [mc4, pp4, ce4, cb4]
        exact hc hl
      exact um5 hg10

/-- startGame() does not touch the bullet store or the shot counters, and
zeroes the wave counter. -/
lemma startGame_invs (d : Difficulty) (bonus t : ℤ) (g : GameState) :
    (InvShots g → InvShots (startGame d bonus t g))
    ∧ (startGame d bonus t g).killsThisWave = 0 := by
  unfold startGame
  dsimp only
  split <;> exact ⟨fun h => h, rfl⟩

/-- togglePause() only exchanges the pause flag and the time anchors. -/
lemma togglePause_invs (t : ℤ) (g : GameState) :
    (InvShots g → InvShots (togglePause t g))
    ∧ (togglePause t g).killsThisWave = g.killsThisWave := by
  unfold togglePause
  dsimp only
  split <;> exact ⟨fun h => h, rfl⟩

/-- resetGame() reestablishes both counting invariants from scratch. -/
lemma resetGame_invs (g : GameState) :
    InvShots (resetGame g) ∧ InvWave (resetGame g) := by
  constructor
  · unfold InvShots resetGame liveBullets
    simp
  · unfold InvWave resetGame KILLS_PER_WAVE
    simp

/-- Both counting invariants hold in every reachable state. -/
lemma reachable_invs : ∀ g : GameState, Reachable g → InvShots g ∧ InvWave g := by
  intro g h
  induction h with
  | reset g0 => exact resetGame_invs g0
  | step env g0 _ ih =>
      exact ⟨(update_invs env g0).1 ih.1, (update_invs env g0).2.1 ih.2⟩
  | fire t g0 _ ih =>
      refine ⟨(shoot_invs t g0).1 ih.1, ?_⟩
      unfold InvWave
      rw [(shoot_invs t g0).2.1]
      exact ih.2
  | pause t g0 _ ih =>
      refine ⟨(togglePause_invs t g0).1 ih.1, ?_⟩
      unfold InvWave
      rw [(togglePause_invs t g0).2]
      exact ih.2
  | start d bonus t g0 _ ih =>
      refine ⟨(startGame_invs d bonus t g0).1 ih.1, ?_⟩
      unfold InvWave
      rw [(startGame_invs d bonus t g0).2]
      exact Nat.zero_le _

/-- The loop break of the bullet sweep fires only when the enemy has just
been destroyed. -/
lemma bulletSweep_broke_dead (env : Env) (e : Enemy) (g : GameState) (k : ℕ) :
    ∀ bs : List Bullet,
      (bulletSweep env e g k bs).broke = true →
        (bulletSweep env e g k bs).enemy.dead = true := by
  intro bs
  induction bs with
  | nil =>
      intro h
      exact absurd h (by simp [bulletSweep])
  | cons b rest ih =>
      rw [bulletSweep]
      by_cases hbk : (bulletSweep env e g k rest).broke = true
      · rw [if_pos hbk]
        intro _
        exact ih hbk
      · rw [if_neg hbk]
        by_cases hd : b.dead = true
        · rw [if_pos hd]
          intro h
          exact absurd h Bool.false_ne_true
        · rw [if_neg hd]
          by_cases hcol : collides b.rect (bulletSweep env e g k rest).enemy.rect = true
          · rw [if_pos hcol]
            dsimp only
            by_cases hkill : (damagedE (bulletSweep env e g k rest).enemy).health ≤ 0
            · rw [if_pos hkill]
              intro _
              rfl
            · rw [if_neg hkill]
              intro h
              exact absurd h Bool.false_ne_true
          · rw [if_neg hcol]
            intro h
            exact absurd h Bool.false_ne_true

/-- Helper for C10: the reported accuracy never exceeds 100 percent when
the hits do not exceed the shots. -/
lemma accuracy_le_100 (hit fired : ℕ) (hle : hit ≤ fired) : accuracy hit fired ≤ 100 := by
  unfold accuracy
  split
  · rename_i hf
    have hx : ((hit : ℚ) / (fired : ℚ)) * 100 ≤ 100 := by
      have hq : (hit : ℚ) / (fired : ℚ) ≤ 1 := by
        rw [div_le_one (by exact_mod_cast hf)]
        exact_mod_cast hle
      nlinarith
    calc round ((hit : ℚ) / (fired : ℚ) * 100) ≤ round (100 : ℚ) := by
          rw [round_eq, round_eq]
          exact Int.floor_le_floor (by linarith)
      _ = 100 := by norm_num
  · norm_num

/-- Claim C1 counterexample: from a state with a single enemy of health 2,
zero hits recorded, and two live bullets overlapping the enemy, one
simulation step records two hits and destroys the enemy.  Had the enemy
been tested only until its first consuming hit (health decremented at most
once per step), the enemy would have survived at health 1 and at most one
hit could have been recorded. -/
theorem update_double_hit_cex :
    gTwoBullets.enemies.map Enemy.health = [2]
    ∧ gTwoBullets.shotsHit = 0
    ∧ (update env0 gTwoBullets).shotsHit = 2
    ∧ (update env0 gTwoBullets).enemies = [] := by
  refine ⟨rfl, rfl, ?_, ?_⟩ <;>
    norm_num [update, tickStart, inputPhase, bulletMovePhase, spawnPhase, collisionPhase,
    enemyPhase, stepEnemy, bulletSweep, killReward, boom, mkParticles, waveAdvance,
    compactBullets, compactEnemies, particlePhase, stepParticle, meteorCheck,
    updateMeteors, meteorPhase, stepMeteor, meteorBulletSweep, spawnMeteor, spawnEnemy,
    shoot, collides, moveBullet, hitState, damagedE, damagedM, setBullets, setEnemies,
    setMeteors, loseLife, addScore, endShower, endGame, gTwoBullets, gLastLife, gBase,
    env0, eBreak, bBreak, Bullet.rect, Enemy.rect, Player.rect, Meteor.rect,
    KILLS_PER_WAVE, List.filter]

/-- Claim C1 as amended: during one simulation step an enemy is tested
against the live bullets until a killing hit is found (the loop break
fires only when the enemy has just been destroyed) or the bullets are
exhausted; an enemy's health may therefore be decremented several times in
one step, once per consumed bullet, and every bullet is consumed by at
most one enemy: over the whole enemy loop, the hit counter grows by
exactly the number of bullets that move from live to consumed, with the
bullet store neither duplicated nor truncated. -/
theorem bullet_single_consumption :
    ∀ (env : Env) (g : GameState) (k : ℕ),
      (∀ es : List Enemy,
        (enemyPhase env es g k).st.shotsHit + liveBullets (enemyPhase env es g k).st.bullets
            = g.shotsHit + liveBullets g.bullets
        ∧ (enemyPhase env es g k).st.bullets.length = g.bullets.length)
      ∧ (∀ (e : Enemy) (bs : List Bullet),
          (bulletSweep env e g k bs).broke = true →
            (bulletSweep env e g k bs).enemy.dead = true) := by
  intro env g k
  refine ⟨fun es => ?_, fun e bs => bulletSweep_broke_dead env e g k bs⟩
  obtain ⟨p1, p2, p3, p4, p5, p6⟩ := enemyPhase_spec env es g k
  exact ⟨p1, p2⟩

/-- Witness for the amended C1: a health-1 enemy against one overlapping
live bullet makes the sweep break with the enemy destroyed, and the
conservation instance holds on the concrete two-bullet state. -/
theorem bullet_single_consumption_witness :
    (bulletSweep env0 eBreak gBase 0 [bBreak]).broke = true
    ∧ (bulletSweep env0 eBreak gBase 0 [bBreak]).enemy.dead = true
    ∧ (enemyPhase env0 gTwoBullets.enemies gTwoBullets 0).st.shotsHit
          + liveBullets (enemyPhase env0 gTwoBullets.enemies gTwoBullets 0).st.bullets
        = gTwoBullets.shotsHit + liveBullets gTwoBullets.bullets := by
  have hbroke : (bulletSweep env0 eBreak gBase 0 [bBreak]).broke = true := by
    norm_num [update, tickStart, inputPhase, bulletMovePhase, spawnPhase, collisionPhase,
    enemyPhase, stepEnemy, bulletSweep, killReward, boom, mkParticles, waveAdvance,
    compactBullets, compactEnemies, particlePhase, stepParticle, meteorCheck,
    updateMeteors, meteorPhase, stepMeteor, meteorBulletSweep, spawnMeteor, spawnEnemy,
    shoot, collides, moveBullet, hitState, damagedE, damagedM, setBullets, setEnemies,
    setMeteors, loseLife, addScore, endShower, endGame, gTwoBullets, gLastLife, gBase,
    env0, eBreak, bBreak, Bullet.rect, Enemy.rect, Player.rect, Meteor.rect,
    KILLS_PER_WAVE, List.filter]
  exact ⟨hbroke,
    (bullet_single_consumption env0 gBase 0).2 eBreak [bBreak] hbroke,
    ((bullet_single_consumption env0 gTwoBullets 0).1 gTwoBullets.enemies).1⟩

/-- Claim C5: in every reachable state, a completed simulation step leaves
killsThisWave at most KILLS_PER_WAVE - 1 = 7: the counter is reset at the
very moment it reaches the threshold inside the step. -/
theorem killsThisWave_invariant :
    ∀ (env : Env) (g : GameState), Reachable g →
      (update env g).killsThisWave ≤ KILLS_PER_WAVE - 1 := by
  intro env g h
  exact (update_invs env g).2.1 (reachable_invs g h).2

/-- Witness for C5: one step from a freshly reset state. -/
theorem killsThisWave_invariant_witness :
    (update env0 (resetGame gBase)).killsThisWave ≤ KILLS_PER_WAVE - 1 :=
  killsThisWave_invariant env0 (resetGame gBase) (Reachable.reset gBase)

/-- Claim C6: a step that brings lives from positive to 0 (or below)
leaves the game not running (endGame fires inside the step); once the game
is not running, every further simulation step is a no-op on the whole
state and every fire attempt is rejected, until a reset. -/
theorem game_over_terminal :
    ∀ (env env2 : Env) (t : ℤ) (g : GameState),
      (0 < g.lives → (update env g).lives ≤ 0 → (update env g).gameRunning = false)
      ∧ (g.gameRunning = false → update env2 g = g)
      ∧ (g.gameRunning = false → shoot t g = g) := by
  intro env env2 t g
  refine ⟨fun hpos => (update_invs env g).2.2 hpos, fun h => ?_, fun h => ?_⟩
  · unfold update
    rw [if_pos (by rw [h]; rfl)]
  · unfold shoot
    rw [if_pos (by rw [h]; rfl)]

/-- Witness for C6: the concrete one-life state with an enemy on the
player transitions to game over in one step, and from a non-running state
both the step and a fire attempt are exact no-ops. -/
theorem game_over_terminal_witness :
    (0 : ℤ) < gLastLife.lives
    ∧ (update env0 gLastLife).lives ≤ 0
    ∧ (update env0 gLastLife).gameRunning = false
    ∧ (resetGame gBase).gameRunning = false
    ∧ update env0 (resetGame gBase) = resetGame gBase
    ∧ shoot 99999 (resetGame gBase) = resetGame gBase := by
  have hpos : (0 : ℤ) < gLastLife.lives := by norm_num [gLastLife, gBase]
  have hlv : (update env0 gLastLife).lives = 0 := by
    norm_num [update, tickStart, inputPhase, bulletMovePhase, spawnPhase, collisionPhase,
    enemyPhase, stepEnemy, bulletSweep, killReward, boom, mkParticles, waveAdvance,
    compactBullets, compactEnemies, particlePhase, stepParticle, meteorCheck,
    updateMeteors, meteorPhase, stepMeteor, meteorBulletSweep, spawnMeteor, spawnEnemy,
    shoot, collides, moveBullet, hitState, damagedE, damagedM, setBullets, setEnemies,
    setMeteors, loseLife, addScore, endShower, endGame, gTwoBullets, gLastLife, gBase,
    env0, eBreak, bBreak, Bullet.rect, Enemy.rect, Player.rect, Meteor.rect,
    KILLS_PER_WAVE, List.filter]
  have hle : (update env0 gLastLife).lives ≤ 0 := le_of_eq hlv
  exact ⟨hpos, hle, (game_over_terminal env0 env0 99999 gLastLife).1 hpos hle,
    rfl, (game_over_terminal env0 env0 99999 (resetGame gBase)).2.1 rfl,
    (game_over_terminal env0 env0 99999 (resetGame gBase)).2.2 rfl⟩

/-- Claim C10: in every reachable state the recorded hits never exceed the
shots fired (each bullet is counted once when created and marked dead on
its first collision, and dead bullets are skipped and compacted), so the
reported accuracy never exceeds 100 percent. -/
theorem shotsHit_le_shotsFired :
    ∀ g : GameState, Reachable g →
      g.shotsHit ≤ g.shotsFired ∧ accuracy g.shotsHit g.shotsFired ≤ 100 := by
  intro g h
  have h1 := (reachable_invs g h).1
  unfold InvShots at h1
  have hle : g.shotsHit ≤ g.shotsFired := by omega
  exact ⟨hle, accuracy_le_100 _ _ hle⟩

/-- Witness for C10 at a concrete reachable state. -/
theorem shotsHit_le_shotsFired_witness :
    (resetGame gBase).shotsHit ≤ (resetGame gBase).shotsFired
    ∧ accuracy (resetGame gBase).shotsHit (resetGame gBase).shotsFired ≤ 100 :=
  shotsHit_le_shotsFired (resetGame gBase) (Reachable.reset gBase)

end LD
